import Mathlib

/-!
# Booking and availability stores of the rental marketplace

Shallow embedding of `internal/domain/listing` and of the SQL statements issued by
`internal/infrastructure/persistance`.  A table is the list of its rows in storage
order.  A `time.Time` column is an integer instant; the string bounds handed to the range
queries are the instants the database parses them to.  Database transport failures (the
wrapped `failed to ...` errors) are outside the model: every statement is executed.
-/

/-! ## internal/domain/listing -/

/-- `type BookingStatus string` of `booking.go`. -/
abbrev BookingStatus := String

/-- `Created BookingStatus = "created"`. -/
def Created : BookingStatus := "created"

/-- `Confirmed BookingStatus = "confirmed"`. -/
def Confirmed : BookingStatus := "confirmed"

/-- `Cancelled BookingStatus = "cancelled"`. -/
def Cancelled : BookingStatus := "cancelled"

/-- `Completed BookingStatus = "completed"`. -/
def Completed : BookingStatus := "completed"

/-- `type Booking struct` of `booking.go`. -/
structure Booking where
  ID : String
  UserID : String
  ListingID : String
  CheckIn : Int
  Checkout : Int
  Status : BookingStatus
  TotalPrice : Int
  CreatedAt : Int
  UpdatedAt : Int
deriving DecidableEq, Repr

/-! ## internal/infrastructure/persistance/booking_repo.go -/

namespace BookingRepository

/-- The date part of the `WHERE` clause of `FindOverlapping`:
`Or{And{LtOrEq{check_in: checkOut}, GtOrEq{checkout: checkIn}}}`. -/
def dateClause (checkIn checkOut : Int) (b : Booking) : Bool :=
  decide (b.CheckIn ≤ checkOut) && decide (b.Checkout ≥ checkIn)

/-- `SELECT ... FROM bookings WHERE listing_id = $1 AND ((check_in <= $2 AND checkout >= $3))
AND status <> $4`, with `$4 = Cancelled`. -/
def FindOverlapping (rows : List Booking) (listingID : String) (checkIn checkOut : Int) :
    List Booking :=
  rows.filter fun b =>
    decide (b.ListingID = listingID) && dateClause checkIn checkOut b &&
      decide (b.Status ≠ Cancelled)

/-- `INSERT INTO bookings ... ON CONFLICT (id) DO UPDATE SET status, total_price, updated_at`:
a row with the same id keeps its other columns, a new id is appended. -/
def Save (rows : List Booking) (b : Booking) : List Booking :=
  if rows.any (fun r => decide (r.ID = b.ID)) then
    rows.map fun r =>
      if r.ID = b.ID then
        { r with Status := b.Status, TotalPrice := b.TotalPrice, UpdatedAt := b.UpdatedAt }
      else r
  else rows ++ [b]

/-- `DELETE FROM bookings WHERE id = $1`; the error is `booking not found` when no row was
affected.  Returns the table after the statement and the error, if any. -/
def DeleteByID (rows : List Booking) (id : String) : List Booking × Option String :=
  let kept := rows.filter fun r => decide (r.ID ≠ id)
  let rowsAffected := rows.length - kept.length
  if rowsAffected = 0 then (kept, some "booking not found") else (kept, none)

end BookingRepository

/-- Half-open intersection of the requested range with the range of a stored booking. -/
def halfOpenOverlap (checkIn checkout : Int) (b : Booking) : Prop :=
  checkIn < b.Checkout ∧ checkout > b.CheckIn

instance (checkIn checkout : Int) (b : Booking) : Decidable (halfOpenOverlap checkIn checkout b) := by
  unfold halfOpenOverlap; infer_instance

/-! ## internal/domain/listing/listing.go, address.go -/

/-- `type Status string` of `listing.go`. -/
abbrev Status := String

/-- `Draft Status = "draft"`. -/
def Draft : Status := "draft"

/-- `Published Status = "Published"`. -/
def Published : Status := "Published"

/-- `Blocked Status = "blocked"`. -/
def Blocked : Status := "blocked"

/-- `Deleted Status = "deleted"`. -/
def Deleted : Status := "deleted"

/-- `type Address struct` of `address.go`. -/
structure Address where
  ID : String
  Country : String
  City : String
  Street : String
  House : String
  Latitude : Float
  Longitude : Float

/-- Zero value of `Address`. -/
def Address.zeroValue : Address :=
  { ID := "", Country := "", City := "", Street := "", House := "", Latitude := 0,
    Longitude := 0 }

/-- `type Listing struct` of `listing.go`. -/
structure Listing where
  ID : String
  Title : String
  Description : String
  PricePerDay : Int
  MinStayDays : Int
  MaxStayDays : Int
  Status : Status
  ImagesIDs : List String
  Address : Address
  PublisherID : String
  HostID : String
  CreatedAt : Int
  UpdatedAT : Int

namespace ListingRepository

/-- `SELECT id, title, description, price_per_day, min_stay_days, max_stay_days, status,
publisher_id, host_id, created_at, updated_at FROM listings WHERE id = $1`, scanned from a
single row into `var l listing.Listing`: the eleven columns of the stored listing with that
id, the image ids and the address keeping their zero values; none when the query has no row
(`failed to find listing`). -/
def FindByID (rows : List Listing) (id : String) : Option Listing :=
  (rows.find? fun l => decide (l.ID = id)).map fun r =>
    { ID := r.ID, Title := r.Title, Description := r.Description,
      PricePerDay := r.PricePerDay, MinStayDays := r.MinStayDays,
      MaxStayDays := r.MaxStayDays, Status := r.Status, ImagesIDs := [],
      Address := Address.zeroValue, PublisherID := r.PublisherID, HostID := r.HostID,
      CreatedAt := r.CreatedAt, UpdatedAT := r.UpdatedAT }

end ListingRepository

/-- Status counted as active by the overlap invariant: created or confirmed. -/
def activeStatus (s : BookingStatus) : Prop := s = Created ∨ s = Confirmed

instance (s : BookingStatus) : Decidable (activeStatus s) := by
  unfold activeStatus; infer_instance

/-- No two distinct stored bookings of one listing, both created or confirmed, have
intersecting half-open ranges. -/
def NoDoubleBooking (rows : List Booking) : Prop :=
  ∀ b1 ∈ rows, ∀ b2 ∈ rows, b1 ≠ b2 → b1.ListingID = b2.ListingID →
    activeStatus b1.Status → activeStatus b2.Status →
      ¬ (b1.CheckIn < b2.Checkout ∧ b1.Checkout > b2.CheckIn)

instance (rows : List Booking) : Decidable (NoDoubleBooking rows) := by
  unfold NoDoubleBooking; infer_instance

/-- Rows of the bookings table are identified by their id. -/
def BookingRepository.UniqueID (rows : List Booking) : Prop :=
  ∀ b1 ∈ rows, ∀ b2 ∈ rows, b1.ID = b2.ID → b1 = b2

/-- States of the bookings table reachable from the empty table by Save and DeleteByID. -/
inductive BookingRepository.Reachable : List Booking → Prop
  | empty : Reachable []
  | save (rows : List Booking) (b : Booking) :
      Reachable rows → Reachable (BookingRepository.Save rows b)
  | delete (rows : List Booking) (id : String) :
      Reachable rows → Reachable (BookingRepository.DeleteByID rows id).1

/-- States reachable when every Save is an admission or a status update: a booking with a new
id is saved only after FindOverlapping for its listing and range returned no booking, and a
stored booking that is not created or confirmed is never saved back as created or
confirmed. -/
inductive BookingRepository.Guarded : List Booking → Prop
  | empty : Guarded []
  | insertNew (rows : List Booking) (b : Booking) :
      Guarded rows → (∀ r ∈ rows, r.ID ≠ b.ID) →
      BookingRepository.FindOverlapping rows b.ListingID b.CheckIn b.Checkout = [] →
      Guarded (BookingRepository.Save rows b)
  | update (rows : List Booking) (b : Booking) :
      Guarded rows → (∃ r ∈ rows, r.ID = b.ID) →
      (∀ r ∈ rows, r.ID = b.ID → activeStatus b.Status → activeStatus r.Status) →
      Guarded (BookingRepository.Save rows b)
  | delete (rows : List Booking) (id : String) :
      Guarded rows → Guarded (BookingRepository.DeleteByID rows id).1

/-- Back-to-back stay: booking of nights 1 and 2, leaving on day 3. -/
def backToBack : Booking :=
  { ID := "b1", UserID := "u1", ListingID := "L", CheckIn := 1, Checkout := 3,
    Status := Created, TotalPrice := 20000, CreatedAt := 0, UpdatedAt := 0 }

/-- Stay that ended before the requested range and was completed. -/
def completedStay : Booking :=
  { ID := "b2", UserID := "u2", ListingID := "L", CheckIn := 1, Checkout := 4,
    Status := Completed, TotalPrice := 30000, CreatedAt := 0, UpdatedAt := 0 }

/-- Stay over nights 2 and 3 of listing L, requested by another guest. -/
def secondStay : Booking :=
  { ID := "b3", UserID := "u3", ListingID := "L", CheckIn := 2, Checkout := 4,
    Status := Created, TotalPrice := 20000, CreatedAt := 0, UpdatedAt := 0 }

/-! ## internal/domain/listing/avaliability.go -/

/-- `type Availability struct` of `avaliability.go`. -/
structure Availability where
  ID : String
  Date : Int
  IsAvailable : Bool
  PriceOverride : Int
  ListingID : String
deriving DecidableEq, Repr

/-! ## internal/infrastructure/persistance/availability_repo.go -/

/-- Order of `ORDER BY date ASC`. -/
def Availability.dateLE (a b : Availability) : Prop := a.Date ≤ b.Date

instance : DecidableRel Availability.dateLE := fun a b => by
  unfold Availability.dateLE; infer_instance

instance : IsTotal Availability Availability.dateLE := ⟨fun a b => le_total a.Date b.Date⟩

instance : IsTrans Availability Availability.dateLE := ⟨fun _ _ _ h1 h2 => le_trans h1 h2⟩

namespace AvailabilityRepository

/-- The `WHERE` clause of `FindByListingIDAndDateRange`:
`listing_id = $1 AND date >= $2 AND date <= $3`. -/
def rangeClause (listingID : String) (startDate endDate : Int) (a : Availability) : Bool :=
  decide (a.ListingID = listingID) && decide (a.Date ≥ startDate) && decide (a.Date ≤ endDate)

/-- `SELECT ... FROM availabilities WHERE listing_id = $1 AND date >= $2 AND date <= $3
ORDER BY date ASC`; rows of equal date keep their storage order. -/
def FindByListingIDAndDateRange (rows : List Availability) (listingID : String)
    (startDate endDate : Int) : List Availability :=
  (rows.filter (rangeClause listingID startDate endDate)).insertionSort Availability.dateLE

/-- `INSERT INTO availabilities ... ON CONFLICT (id) DO UPDATE SET date, is_available,
price_override, listing_id`: a row with the same id takes the new columns, a new id is
appended. -/
def Save (rows : List Availability) (a : Availability) : List Availability :=
  if rows.any (fun r => decide (r.ID = a.ID)) then
    rows.map fun r =>
      if r.ID = a.ID then
        { r with Date := a.Date, IsAvailable := a.IsAvailable,
                 PriceOverride := a.PriceOverride, ListingID := a.ListingID }
      else r
  else rows ++ [a]

/-- `SaveMany`: nothing is sent for an empty batch; otherwise one multi-row
`INSERT ... ON CONFLICT (id) DO UPDATE`.  The statement is atomic, and the database rejects a
batch that proposes the same id twice (an upsert may not touch a row a second time), which
surfaces as the wrapped `failed to save availabilities` error with the table unchanged. -/
def SaveMany (rows : List Availability) (availabilities : List Availability) :
    List Availability × Option String :=
  if availabilities.length = 0 then (rows, none)
  else if (availabilities.map fun a => a.ID).Nodup then (availabilities.foldl Save rows, none)
  else (rows, some "failed to save availabilities")

/-- `DELETE FROM availabilities WHERE id = $1`; the error is `availability not found` when no
row was affected.  Returns the table after the statement and the error, if any. -/
def DeleteByID (rows : List Availability) (id : String) : List Availability × Option String :=
  let kept := rows.filter fun r => decide (r.ID ≠ id)
  let rowsAffected := rows.length - kept.length
  if rowsAffected = 0 then (kept, some "availability not found") else (kept, none)

/-- States of the availabilities table reachable from the empty table by Save, SaveMany and
DeleteByID. -/
inductive Reachable : List Availability → Prop
  | empty : Reachable []
  | save (rows : List Availability) (a : Availability) :
      Reachable rows → Reachable (Save rows a)
  | saveMany (rows : List Availability) (availabilities : List Availability) :
      Reachable rows → Reachable (SaveMany rows availabilities).1
  | delete (rows : List Availability) (id : String) :
      Reachable rows → Reachable (DeleteByID rows id).1

/-- Stored records of one (listing id, date) pair. -/
def recordsFor (rows : List Availability) (listingID : String) (date : Int) :
    List Availability :=
  rows.filter fun a => decide (a.ListingID = listingID) && decide (a.Date = date)

/-- Stored records of one id. -/
def recordsWithID (rows : List Availability) (id : String) : List Availability :=
  rows.filter fun a => decide (a.ID = id)

end AvailabilityRepository

/-! ## Pricing, admission and lifecycle (spec sections 4.1 to 4.3)

The repository declares the data types and the stores only; it has no pricing, admission or
lifecycle function.  The three operations below are modelled from the specification and
call the embedded stores. -/

/-- Failures named by spec section 7 that the modelled operations return. -/
inductive DomainError where
  | InvalidRangeError
  | InvalidStayLengthError
  | ListingUnavailableError
  | DateBlockedError (date : Int)
  | OverlapError (bookingID : String)
  | InvalidTransitionError
  | TooLateToCancelError
  | PrematureCompletionError
deriving DecidableEq, Repr

/-- Modelled from the spec: the per-date effective price of section 4.1, which the repository
does not implement.  The price of date d is the override price of the first entry of
overrides dated d that carries an override (a non-zero PriceOverride, the field being a plain
int64), and the base price per day of the listing otherwise. -/
def effectivePrice (l : Listing) (overrides : List Availability) (d : Int) : Int :=
  match overrides.find? fun a => decide (a.Date = d) && decide (a.PriceOverride ≠ 0) with
  | some a => a.PriceOverride
  | none => l.PricePerDay

/-- Modelled from the spec: the accumulation loop of ComputePrice (section 4.1), missing from
the repository; adds the effective price of `days` consecutive dates starting at `d`. -/
def priceLoop (l : Listing) (overrides : List Availability) : Int → Nat → Int → Int
  | _, 0, acc => acc
  | d, days + 1, acc => priceLoop l overrides (d + 1) days (acc + effectivePrice l overrides d)

/-- Modelled from the spec: ComputePrice of section 4.1, missing from the repository.  Fails
with InvalidRangeError when endDate is not after startDate, else walks the dates of
[startDate, endDate) and adds their effective prices.  Sums are taken in unbounded integers
(the spec asks for a width of at least 63 bits), so no overflow arises. -/
def ComputePrice (l : Listing) (startDate endDate : Int) (overrides : List Availability) :
    Except DomainError Int :=
  if endDate ≤ startDate then .error .InvalidRangeError
  else .ok (priceLoop l overrides startDate (endDate - startDate).toNat 0)

/-- Modelled from the spec: RequestBooking of section 4.2, missing from the repository, over
the embedded stores.  Step 1 rejects checkIn >= checkout and a stay length outside the
bounds of the listing, step 2 a listing that is absent or not published, step 3 loads the
calendar entries of [checkIn, checkout) through the inclusive range lookup and rejects the
first blocked date, step 4 takes the candidates of FindOverlapping and rejects the first one
that is created or confirmed and intersects the half-open range, step 5 prices the stay,
steps 6 and 7 save and return the created booking.  The generated id and the clock are
inputs. -/
def RequestBooking (listings : List Listing) (calendar : List Availability)
    (bookings : List Booking) (newID : String) (now : Int) (listingID userID : String)
    (checkIn checkout : Int) : Except DomainError (Booking × List Booking) :=
  if checkout ≤ checkIn then .error .InvalidStayLengthError
  else
    match ListingRepository.FindByID listings listingID with
    | none => .error .ListingUnavailableError
    | some l =>
      if checkout - checkIn < l.MinStayDays ∨ l.MaxStayDays < checkout - checkIn then
        .error .InvalidStayLengthError
      else if l.Status ≠ Published then .error .ListingUnavailableError
      else
        let entries :=
          AvailabilityRepository.FindByListingIDAndDateRange calendar listingID checkIn
            (checkout - 1)
        match entries.find? fun a => !a.IsAvailable with
        | some a => .error (.DateBlockedError a.Date)
        | none =>
          let conflicts :=
            (BookingRepository.FindOverlapping bookings listingID checkIn checkout).filter
              fun b => decide (activeStatus b.Status) && decide (halfOpenOverlap checkIn checkout b)
          match conflicts.head? with
          | some b => .error (.OverlapError b.ID)
          | none =>
            match ComputePrice l checkIn checkout entries with
            | .error e => .error e
            | .ok total =>
              let created : Booking :=
                { ID := newID, UserID := userID, ListingID := listingID, CheckIn := checkIn,
                  Checkout := checkout, Status := Created, TotalPrice := total,
                  CreatedAt := now, UpdatedAt := now }
              .ok (created, BookingRepository.Save bookings created)

/-- Modelled from the spec: the status state machine of section 4.3, missing from the
repository, for an actor entitled to the requested change.  From created a booking may be
confirmed or cancelled; from confirmed it may be cancelled before the check-in date (else
TooLateToCancelError) and completed after the checkout date has passed (else
PrematureCompletionError); any other change is an InvalidTransitionError. -/
def Transition (b : Booking) (target : BookingStatus) (now : Int) :
    Except DomainError Booking :=
  if b.Status = Created ∧ (target = Confirmed ∨ target = Cancelled) then
    .ok { b with Status := target, UpdatedAt := now }
  else if b.Status = Confirmed ∧ target = Cancelled then
    if now < b.CheckIn then .ok { b with Status := target, UpdatedAt := now }
    else .error .TooLateToCancelError
  else if b.Status = Confirmed ∧ target = Completed then
    if b.Checkout < now then .ok { b with Status := target, UpdatedAt := now }
    else .error .PrematureCompletionError
  else .error .InvalidTransitionError

/-- Calendar entry of listing L for day 10, open. -/
def day10Open : Availability :=
  { ID := "a1", Date := 10, IsAvailable := true, PriceOverride := 0, ListingID := "L" }

/-- Second calendar entry of listing L for day 10 under another id, blocked. -/
def day10Blocked : Availability :=
  { ID := "a2", Date := 10, IsAvailable := false, PriceOverride := 0, ListingID := "L" }

/-- Stay over nights 5 and 6 of listing L. -/
def laterStay : Booking :=
  { ID := "b4", UserID := "u3", ListingID := "L", CheckIn := 5, Checkout := 7,
    Status := Confirmed, TotalPrice := 20000, CreatedAt := 0, UpdatedAt := 0 }

/-- Listing of the pricing scenario: base price 10000 per day, stays of 2 to 14 days. -/
def scenarioListing : Listing :=
  { ID := "L", Title := "Flat", Description := "", PricePerDay := 10000, MinStayDays := 2,
    MaxStayDays := 14, Status := Published, ImagesIDs := [],
    Address := Address.zeroValue,
    PublisherID := "h", HostID := "h", CreatedAt := 0, UpdatedAT := 0 }

/-! ## internal/infrastructure/persistance/listing_repo.go (Save) -/

/-- `INSERT INTO listings (id, title, description, price_per_day, min_stay_days,
max_stay_days, status, publisher_id, host_id, created_at, updated_at) ... ON CONFLICT (id)
DO UPDATE SET title, description, price_per_day, min_stay_days, max_stay_days, status,
updated_at`: a row with the same id takes these seven columns and keeps the others, a new id
is appended with its eleven columns (image ids and address are no columns of the table). -/
def ListingRepository.Save (rows : List Listing) (l : Listing) : List Listing :=
  if rows.any (fun r => decide (r.ID = l.ID)) then
    rows.map fun r =>
      if r.ID = l.ID then
        { r with Title := l.Title, Description := l.Description,
                 PricePerDay := l.PricePerDay, MinStayDays := l.MinStayDays,
                 MaxStayDays := l.MaxStayDays, Status := l.Status,
                 UpdatedAT := l.UpdatedAT }
      else r
  else rows ++ [{ l with ImagesIDs := [], Address := Address.zeroValue }]

/-! ## internal/domain/user

The services are written against the interfaces `user.Repository`, `PasswordHasher`,
`TokenGenerator` and `EmailService`.  An interface value is a record of answer functions; a
method returning `(*T, error)` answers `Except String T` (the error message, or the value),
a method returning `error` answers `Option String`.  Every service function returns its Go
result together with the list of collaborator calls it made, in order.  The context is
inspected through `ctx.Value` only; where a function merely forwards it, it is left out.
`time.Now()` and `uuid.New()` are inputs. -/

/-- `type Role string` of `user.go`. -/
abbrev Role := String

/-- `Guest Role = "guest"`. -/
def Guest : Role := "guest"

/-- `Host Role = "host"`. -/
def Host : Role := "host"

/-- `Admin Role = "admin"`. -/
def Admin : Role := "admin"

/-- `type User struct` of `user.go`. -/
structure User where
  ID : String
  Email : String
  Phone : String
  Role : Role
  CreatedAt : Int
deriving DecidableEq, Repr

/-- Dynamic value held by a `context.Context` key: a `user.Role`, a `string`, or a value of
any other type. -/
inductive CtxValue where
  | role (r : Role)
  | str (s : String)
  | other
deriving DecidableEq, Repr

/-- `context.Context` as seen through `ctx.Value(key)`: nil (none) for a missing key. -/
abbrev Context := String → Option CtxValue

/-- `ctx.Value("user_role").(user.Role)`: the role and ok, or not ok (none) when the key is
missing or holds a value of another type. -/
def Context.userRole (ctx : Context) : Option Role :=
  match ctx "user_role" with
  | some (.role r) => some r
  | _ => none

/-- `ctx.Value("user_id").(string)`: the string and ok, or not ok (none). -/
def Context.userID (ctx : Context) : Option String :=
  match ctx "user_id" with
  | some (.str s) => some s
  | _ => none

/-- Call of a collaborator method, with its arguments. -/
inductive Call where
  | FindByID (id : String)
  | FindByEmail (email : String)
  | FindAll (role : Option Role) (limit offset : Nat)
  | Save (u : User)
  | DeleteByID (id : String)
  | Count (role : Option Role)
  | Exists (id : String)
  | Hash (password : String)
  | Verify (password hashedPassword : String)
  | GenerateToken (userID : String) (role : Role)
  | GenerateRefreshToken (userID : String)
  | GeneratePasswordResetToken (userID : String)
  | ValidateToken (token : String)
  | SendVerificationEmail (email userID : String)
  | SendPasswordResetEmail (email resetToken : String)
deriving DecidableEq, Repr

/-- `type Repository interface` of `repository.go`.  A found user is returned with a nil
error and a nil user with an error, as `UserRepository` does. -/
structure Repository where
  FindByID : String → Except String User
  FindByEmail : String → Except String User
  FindAll : Option Role → Nat → Nat → Except String (List User)
  Save : User → Option String
  DeleteByID : String → Option String
  Count : Option Role → Except String Int
  Exists : String → Except String Bool

/-! ## internal/domain/user/user_creator/service.go -/

namespace usercreator

/-- `type PasswordHasher interface` of the package. -/
structure PasswordHasher where
  Hash : String → Except String String

/-- `type Service struct` of the package. -/
structure Service where
  userRepo : Repository
  passwordHasher : PasswordHasher

/-- `type CreateInput struct`. -/
structure CreateInput where
  Email : String
  Password : String
  Phone : String
  Role : Role
deriving DecidableEq, Repr

/-- `func (s *Service) Create`; `len(input.Password)` is the byte length of the string. -/
def Service.Create (s : Service) (now : Int) (input : CreateInput) :
    Except String User × List Call :=
  if input.Email = "" then (.error "email is required", [])
  else if input.Password = "" then (.error "password is required", [])
  else if input.Password.utf8ByteSize < 8 then
    (.error "password must be at least 8 characters", [])
  else
    let input := if input.Role = "" then { input with Role := Guest } else input
    match s.userRepo.FindByEmail input.Email with
    | .ok _ => (.error "email already in use", [.FindByEmail input.Email])
    | .error _ =>
      match s.passwordHasher.Hash input.Password with
      | .error err =>
        (.error ("failed to hash password: " ++ err),
          [.FindByEmail input.Email, .Hash input.Password])
      | .ok _ =>
        let u : User :=
          { ID := "", Email := input.Email, Phone := input.Phone, Role := input.Role,
            CreatedAt := now }
        match s.userRepo.Save u with
        | some err =>
          (.error ("failed to create user: " ++ err),
            [.FindByEmail input.Email, .Hash input.Password, .Save u])
        | none => (.ok u, [.FindByEmail input.Email, .Hash input.Password, .Save u])

end usercreator

/-! ## internal/domain/user/user_role_manager/service.go -/

namespace userrolemanager

/-- `type Service struct` of the package. -/
structure Service where
  userRepo : Repository

/-- `type ChangeRoleInput struct`. -/
structure ChangeRoleInput where
  UserID : String
  NewRole : Role
deriving DecidableEq, Repr

/-- The map literal `validTransitions` of `isValidRoleTransition`. -/
def validTransitions : List (Role × List Role) :=
  [(Guest, [Host]), (Host, [Guest, Admin]), (Admin, [Host, Guest])]

/-- `func isValidRoleTransition(from, to user.Role) bool`: map lookup, then the loop over the
allowed roles. -/
def isValidRoleTransition (fromRole toRole : Role) : Bool :=
  match validTransitions.lookup fromRole with
  | none => false
  | some allowedRoles => allowedRoles.any fun role => role == toRole

/-- `func (s *Service) checkRoleChangeAuthorization`; the result is the error, none for
nil. -/
def Service.checkRoleChangeAuthorization (_s : Service) (ctx : Context)
    (targetUserID : String) (newRole : Role) : Option String :=
  match ctx.userRole with
  | none => some "unauthorized: not authenticated"
  | some currentRole =>
    if newRole = Admin ∧ currentRole ≠ Admin then
      some "unauthorized: only admins can promote users to admin"
    else
      let currentUserID := ctx.userID.getD ""
      if currentUserID ≠ targetUserID ∧ currentRole ≠ Admin then
        some "unauthorized: cannot change another user\x27s role"
      else none

/-- `func (s *Service) ChangeRole`. -/
def Service.ChangeRole (s : Service) (ctx : Context) (input : ChangeRoleInput) :
    Except String User × List Call :=
  if input.UserID = "" then (.error "user ID is required", [])
  else
    match s.checkRoleChangeAuthorization ctx input.UserID input.NewRole with
    | some err => (.error err, [])
    | none =>
      match s.userRepo.FindByID input.UserID with
      | .error err => (.error ("user not found: " ++ err), [.FindByID input.UserID])
      | .ok u =>
        if !isValidRoleTransition u.Role input.NewRole then
          (.error ("invalid role transition from " ++ u.Role ++ " to " ++ input.NewRole),
            [.FindByID input.UserID])
        else
          let u := { u with Role := input.NewRole }
          match s.userRepo.Save u with
          | some err =>
            (.error ("failed to update user role: " ++ err), [.FindByID input.UserID, .Save u])
          | none => (.ok u, [.FindByID input.UserID, .Save u])

/-- `func (s *Service) PromoteToAdmin`. -/
def Service.PromoteToAdmin (s : Service) (ctx : Context) (userID : String) :
    Except String User × List Call :=
  match ctx.userRole with
  | none => (.error "unauthorized: only admins can promote users to admin", [])
  | some currentRole =>
    if currentRole ≠ Admin then
      (.error "unauthorized: only admins can promote users to admin", [])
    else s.ChangeRole ctx { UserID := userID, NewRole := Admin }

end userrolemanager

/-! ## internal/usecases/user -/

namespace usecases

/-- `type PasswordHasher interface` of `interfaces.go`. -/
structure PasswordHasher where
  Hash : String → Except String String
  Verify : String → String → Option String

/-- `type TokenGenerator interface` of `interfaces.go`; `ValidateToken` answers the user id
and the role. -/
structure TokenGenerator where
  GenerateToken : String → Role → Except String String
  GenerateRefreshToken : String → Except String String
  ValidateToken : String → Except String (String × Role)

/-- `type EmailService interface` of `interfaces.go`. -/
structure EmailService where
  SendVerificationEmail : String → String → Option String
  SendPasswordResetEmail : String → String → Option String
  SendWelcomeEmail : String → String → Option String

/-- `type ChangeRoleInput struct` of `change_role.go`. -/
structure ChangeRoleInput where
  UserID : String
  NewRole : Role
deriving DecidableEq, Repr

/-- `type ChangeRoleUseCase struct`. -/
structure ChangeRoleUseCase where
  userRepo : Repository

/-- The map literal `validTransitions` of `isValidRoleTransition` in `change_role.go`. -/
def validTransitions : List (Role × List Role) :=
  [(Guest, [Host]), (Host, [Guest]), (Admin, [Host, Guest])]

/-- `func isValidRoleTransition(from, to user.Role) bool` of `change_role.go`. -/
def isValidRoleTransition (fromRole toRole : Role) : Bool :=
  match validTransitions.lookup fromRole with
  | none => false
  | some allowedRoles => allowedRoles.any fun role => role == toRole

/-- `func (uc *ChangeRoleUseCase) Execute`. -/
def ChangeRoleUseCase.Execute (uc : ChangeRoleUseCase) (ctx : Context)
    (input : ChangeRoleInput) : Except String User × List Call :=
  if input.UserID = "" then (.error "user ID is required", [])
  else
    match ctx.userRole with
    | none => (.error "unauthorized: not authenticated", [])
    | some currentRole =>
      if input.NewRole = Admin ∧ currentRole ≠ Admin then
        (.error "unauthorized: only admins can promote users to admin", [])
      else
        let currentUserID := ctx.userID.getD ""
        if currentUserID ≠ input.UserID ∧ currentRole ≠ Admin then
          (.error "unauthorized: cannot change another user\x27s role", [])
        else
          match uc.userRepo.FindByID input.UserID with
          | .error err => (.error ("user not found: " ++ err), [.FindByID input.UserID])
          | .ok u =>
            if !isValidRoleTransition u.Role input.NewRole then
              (.error ("invalid role transition from " ++ u.Role ++ " to " ++ input.NewRole),
                [.FindByID input.UserID])
            else
              let u := { u with Role := input.NewRole }
              match uc.userRepo.Save u with
              | some err =>
                (.error ("failed to update user role: " ++ err),
                  [.FindByID input.UserID, .Save u])
              | none => (.ok u, [.FindByID input.UserID, .Save u])

/-- `type RegisterUserInput struct` of `register_user.go`. -/
structure RegisterUserInput where
  Email : String
  Phone : String
  Password : String
  Role : Role
deriving DecidableEq, Repr

/-- `type RegisterUserOutput struct`. -/
structure RegisterUserOutput where
  User : User
  Token : String
deriving DecidableEq, Repr

/-- `type RegisterUserUseCase struct`. -/
structure RegisterUserUseCase where
  userRepo : Repository
  passwordHasher : PasswordHasher
  tokenGenerator : TokenGenerator
  emailService : EmailService

/-- `func (uc *RegisterUserUseCase) validateInput`; `len(input.Password)` is the byte length
of the string. -/
def RegisterUserUseCase.validateInput (_uc : RegisterUserUseCase) (input : RegisterUserInput) :
    Option String :=
  if input.Email = "" then some "email is required"
  else if input.Password = "" then some "password is required"
  else if input.Password.utf8ByteSize < 8 then some "password must be at least 8 characters"
  else if input.Role ≠ Guest ∧ input.Role ≠ Host then some "invalid role"
  else none

/-- `func (uc *RegisterUserUseCase) Execute`.  The verification email is sent from a new
goroutine whose result is dropped; the call is listed last. -/
def RegisterUserUseCase.Execute (uc : RegisterUserUseCase) (newUUID : String) (now : Int)
    (input : RegisterUserInput) : Except String RegisterUserOutput × List Call :=
  match uc.validateInput input with
  | some err => (.error ("invalid input: " ++ err), [])
  | none =>
    match uc.userRepo.FindByEmail input.Email with
    | .ok _ =>
      (.error ("user with email " ++ input.Email ++ " already exists"),
        [.FindByEmail input.Email])
    | .error _ =>
      match uc.passwordHasher.Hash input.Password with
      | .error err =>
        (.error ("failed to hash password: " ++ err),
          [.FindByEmail input.Email, .Hash input.Password])
      | .ok _ =>
        let newUser : User :=
          { ID := newUUID, Email := input.Email, Phone := input.Phone, Role := input.Role,
            CreatedAt := now }
        match uc.userRepo.Save newUser with
        | some err =>
          (.error ("failed to save user: " ++ err),
            [.FindByEmail input.Email, .Hash input.Password, .Save newUser])
        | none =>
          match uc.tokenGenerator.GenerateToken newUser.ID newUser.Role with
          | .error err =>
            (.error ("failed to generate token: " ++ err),
              [.FindByEmail input.Email, .Hash input.Password, .Save newUser,
                .GenerateToken newUser.ID newUser.Role])
          | .ok token =>
            (.ok { User := newUser, Token := token },
              [.FindByEmail input.Email, .Hash input.Password, .Save newUser,
                .GenerateToken newUser.ID newUser.Role,
                .SendVerificationEmail newUser.Email newUser.ID])

end usecases

/-! ## internal/domain/user/user_password_manager/service.go -/

namespace userpasswordmanager

/-- `type PasswordHasher interface` of the package. -/
structure PasswordHasher where
  Hash : String → Except String String
  Verify : String → String → Option String

/-- `type TokenGenerator interface` of the package. -/
structure TokenGenerator where
  GeneratePasswordResetToken : String → Except String String
  ValidateToken : String → Except String (String × Role)

/-- `type EmailService interface` of the package. -/
structure EmailService where
  SendPasswordResetEmail : String → String → Option String

/-- `type Service struct` of the package. -/
structure Service where
  userRepo : Repository
  passwordHasher : PasswordHasher
  tokenGenerator : TokenGenerator
  emailService : EmailService

/-- `func (s *Service) RequestPasswordReset`; the result is the returned error, none for
nil. -/
def Service.RequestPasswordReset (s : Service) (email : String) :
    Option String × List Call :=
  if email = "" then (some "email is required", [])
  else
    match s.userRepo.FindByEmail email with
    | .error _ => (none, [.FindByEmail email])
    | .ok u =>
      match s.tokenGenerator.GeneratePasswordResetToken u.ID with
      | .error err =>
        (some ("failed to generate reset token: " ++ err),
          [.FindByEmail email, .GeneratePasswordResetToken u.ID])
      | .ok resetToken =>
        match s.emailService.SendPasswordResetEmail email resetToken with
        | some err =>
          (some ("failed to send reset email: " ++ err),
            [.FindByEmail email, .GeneratePasswordResetToken u.ID,
              .SendPasswordResetEmail email resetToken])
        | none =>
          (none,
            [.FindByEmail email, .GeneratePasswordResetToken u.ID,
              .SendPasswordResetEmail email resetToken])

end userpasswordmanager

/-! ## internal/domain/user/user_authenticator/service.go -/

namespace userauthenticator

/-- `type PasswordHasher interface` of the package. -/
structure PasswordHasher where
  Verify : String → String → Option String

/-- `type TokenGenerator interface` of the package. -/
structure TokenGenerator where
  GenerateToken : String → Role → Except String String
  GenerateRefreshToken : String → Except String String
  ValidateToken : String → Except String (String × Role)

/-- `type Service struct` of the package. -/
structure Service where
  userRepo : Repository
  passwordHasher : PasswordHasher
  tokenGenerator : TokenGenerator

/-- `type LoginInput struct`. -/
structure LoginInput where
  Email : String
  Password : String
deriving DecidableEq, Repr

/-- `type LoginOutput struct`. -/
structure LoginOutput where
  User : User
  AccessToken : String
  RefreshToken : String
deriving DecidableEq, Repr

/-- `func (s *Service) Login`; the password check is a commented-out TODO in the source, so
between the lookup and the token generation nothing is executed. -/
def Service.Login (s : Service) (input : LoginInput) :
    Except String LoginOutput × List Call :=
  if input.Email = "" ∨ input.Password = "" then
    (.error "email and password are required", [])
  else
    match s.userRepo.FindByEmail input.Email with
    | .error _ => (.error "invalid email or password", [.FindByEmail input.Email])
    | .ok u =>
      match s.tokenGenerator.GenerateToken u.ID u.Role with
      | .error err =>
        (.error ("failed to generate access token: " ++ err),
          [.FindByEmail input.Email, .GenerateToken u.ID u.Role])
      | .ok accessToken =>
        match s.tokenGenerator.GenerateRefreshToken u.ID with
        | .error err =>
          (.error ("failed to generate refresh token: " ++ err),
            [.FindByEmail input.Email, .GenerateToken u.ID u.Role,
              .GenerateRefreshToken u.ID])
        | .ok refreshToken =>
          (.ok { User := u, AccessToken := accessToken, RefreshToken := refreshToken },
            [.FindByEmail input.Email, .GenerateToken u.ID u.Role,
              .GenerateRefreshToken u.ID])

end userauthenticator

/-! ## internal/usecases/user/login_user.go -/

namespace usecases

/-- `type LoginUserInput struct`. -/
structure LoginUserInput where
  Email : String
  Password : String
deriving DecidableEq, Repr

/-- `type LoginUserOutput struct`. -/
structure LoginUserOutput where
  User : User
  AccessToken : String
  RefreshToken : String
deriving DecidableEq, Repr

/-- `type LoginUserUseCase struct`. -/
structure LoginUserUseCase where
  userRepo : Repository
  passwordHasher : PasswordHasher
  tokenGenerator : TokenGenerator

/-- `func (uc *LoginUserUseCase) Execute`, the use-case twin of
`userauthenticator.Service.Login`; it verifies the password against the user id. -/
def LoginUserUseCase.Execute (uc : LoginUserUseCase) (input : LoginUserInput) :
    Except String LoginUserOutput × List Call :=
  if input.Email = "" ∨ input.Password = "" then
    (.error "email and password are required", [])
  else
    match uc.userRepo.FindByEmail input.Email with
    | .error _ => (.error "invalid email or password", [.FindByEmail input.Email])
    | .ok u =>
      match uc.passwordHasher.Verify input.Password u.ID with
      | some _ =>
        (.error "invalid email or password",
          [.FindByEmail input.Email, .Verify input.Password u.ID])
      | none =>
        match uc.tokenGenerator.GenerateToken u.ID u.Role with
        | .error err =>
          (.error ("failed to generate access token: " ++ err),
            [.FindByEmail input.Email, .Verify input.Password u.ID,
              .GenerateToken u.ID u.Role])
        | .ok accessToken =>
          match uc.tokenGenerator.GenerateRefreshToken u.ID with
          | .error err =>
            (.error ("failed to generate refresh token: " ++ err),
              [.FindByEmail input.Email, .Verify input.Password u.ID,
                .GenerateToken u.ID u.Role, .GenerateRefreshToken u.ID])
          | .ok refreshToken =>
            (.ok { User := u, AccessToken := accessToken, RefreshToken := refreshToken },
              [.FindByEmail input.Email, .Verify input.Password u.ID,
                .GenerateToken u.ID u.Role, .GenerateRefreshToken u.ID])

end usecases

/-! ## internal/infrastructure/persistance/user_repo.go -/

/-- Order of `ORDER BY created_at DESC`. -/
def User.createdDesc (a b : User) : Prop := b.CreatedAt ≤ a.CreatedAt

instance : DecidableRel User.createdDesc := fun a b => by
  unfold User.createdDesc; infer_instance

namespace UserRepository

/-- `SELECT ... FROM users WHERE id = $1`, scanned from a single row; the error wraps
`sql.ErrNoRows` when no row matches. -/
def FindByID (rows : List User) (id : String) : Except String User :=
  match rows.find? fun u => decide (u.ID = id) with
  | some u => .ok u
  | none => .error "failed to find user: sql: no rows in result set"

/-- `SELECT ... FROM users WHERE email = $1`, scanned from a single row. -/
def FindByEmail (rows : List User) (email : String) : Except String User :=
  match rows.find? fun u => decide (u.Email = email) with
  | some u => .ok u
  | none => .error "failed to find user by email: sql: no rows in result set"

/-- `SELECT ... FROM users [WHERE role = $1] ORDER BY created_at DESC [LIMIT n] [OFFSET m]`;
the role filter, the limit and the offset are added when given and positive. -/
def FindAll (rows : List User) (role : Option Role) (limit offset : Nat) : List User :=
  let selected : List User :=
    match role with
    | some r => rows.filter fun u => decide (u.Role = r)
    | none => rows
  let ordered := selected.insertionSort User.createdDesc
  let skipped := if offset > 0 then ordered.drop offset else ordered
  if limit > 0 then skipped.take limit else skipped

/-- `INSERT INTO users ... ON CONFLICT (id) DO UPDATE SET email, phone, role`. -/
def Save (rows : List User) (u : User) : List User :=
  if rows.any (fun r => decide (r.ID = u.ID)) then
    rows.map fun r =>
      if r.ID = u.ID then { r with Email := u.Email, Phone := u.Phone, Role := u.Role }
      else r
  else rows ++ [u]

/-- `DELETE FROM users WHERE id = $1`; the error is `user not found` when no row was
affected.  Returns the table after the statement and the error, if any. -/
def DeleteByID (rows : List User) (id : String) : List User × Option String :=
  let kept := rows.filter fun r => decide (r.ID ≠ id)
  let rowsAffected := rows.length - kept.length
  if rowsAffected = 0 then (kept, some "user not found") else (kept, none)

/-- `SELECT COUNT(*) FROM users [WHERE role = $1]`. -/
def Count (rows : List User) (role : Option Role) : Int :=
  match role with
  | some r => (rows.filter fun u => decide (u.Role = r)).length
  | none => rows.length

/-- `SELECT 1 FROM users WHERE id = $1 LIMIT 1`: false on `sql.ErrNoRows`, else true. -/
def Exists (rows : List User) (id : String) : Bool :=
  rows.any fun u => decide (u.ID = id)

/-- The `user.Repository` value a service sees when the users table holds `rows`: every
method answers as the statement above does on that table. -/
def answers (rows : List User) : Repository :=
  { FindByID := FindByID rows
    FindByEmail := FindByEmail rows
    FindAll := fun role limit offset => .ok (FindAll rows role limit offset)
    Save := fun _ => none
    DeleteByID := fun id => (DeleteByID rows id).2
    Count := fun role => .ok (Count rows role)
    Exists := fun id => .ok (Exists rows id) }

end UserRepository

/-- Listing L after its host deleted it. -/
def deletedListing : Listing :=
  { scenarioListing with Status := Deleted }

/-- Listing value with the id of listing L, published again under a new title. -/
def relistedListing : Listing :=
  { scenarioListing with Title := "Flat, relisted", Status := Published, UpdatedAT := 9 }

/-- Registered guest. -/
def alice : User :=
  { ID := "u1", Email := "alice@example.com", Phone := "", Role := Guest, CreatedAt := 0 }

/-- Hasher of the creation service that hashes every password. -/
def plainHasher : usercreator.PasswordHasher :=
  { Hash := fun password => .ok ("hash:" ++ password) }

/-- Creation service over an empty users table. -/
def creatorService : usercreator.Service :=
  { userRepo := UserRepository.answers [], passwordHasher := plainHasher }

/-- Creation request with a role string outside the three declared roles. -/
def ownerInput : usercreator.CreateInput :=
  { Email := "owner@example.com", Password := "correct horse", Phone := "", Role := "owner" }

/-- Context of an authenticated guest with id u1. -/
def guestContext : Context := fun key =>
  if key = "user_role" then some (.role Guest)
  else if key = "user_id" then some (.str "u1")
  else none

/-- Context whose user_role key holds the plain string "admin", not a `user.Role`. -/
def untypedAdminContext : Context := fun key =>
  if key = "user_role" then some (.str "admin")
  else if key = "user_id" then some (.str "u1")
  else none

/-- Registration use case over an empty users table. -/
def registerUseCase : usecases.RegisterUserUseCase :=
  { userRepo := UserRepository.answers []
    passwordHasher := { Hash := fun password => .ok ("hash:" ++ password),
                        Verify := fun _ _ => none }
    tokenGenerator := { GenerateToken := fun userID _ => .ok ("access:" ++ userID),
                        GenerateRefreshToken := fun userID => .ok ("refresh:" ++ userID),
                        ValidateToken := fun _ => .error "invalid token" }
    emailService := { SendVerificationEmail := fun _ _ => none,
                      SendPasswordResetEmail := fun _ _ => none,
                      SendWelcomeEmail := fun _ _ => none } }

/-- Registration request with a password of five bytes. -/
def shortPasswordInput : usecases.RegisterUserInput :=
  { Email := "bob@example.com", Phone := "", Password := "short", Role := Guest }

/-- Registration request whose password has four characters and eight bytes. -/
def fourCharacterInput : usecases.RegisterUserInput :=
  { Email := "bob@example.com", Phone := "", Password := "éééé", Role := Guest }

/-- An error message of the unauthorized kind: it starts with `unauthorized:`. -/
def unauthorizedError (err : String) : Bool :=
  "unauthorized:".toList.isPrefixOf err.toList

/-- Reset-token generator that issues a token for every user id. -/
def resetTokens : userpasswordmanager.TokenGenerator :=
  { GeneratePasswordResetToken := fun userID => .ok ("reset:" ++ userID),
    ValidateToken := fun _ => .error "invalid token" }

/-- Reset-token generator that is out of order. -/
def brokenResetTokens : userpasswordmanager.TokenGenerator :=
  { GeneratePasswordResetToken := fun _ => .error "signing key unavailable",
    ValidateToken := fun _ => .error "invalid token" }

/-- Email service whose delivery fails. -/
def failingMail : userpasswordmanager.EmailService :=
  { SendPasswordResetEmail := fun _ _ => some "smtp unavailable" }

/-- Password service over the users table `rows`, with the given token generator and the
failing email service. -/
def passwordService (rows : List User) (tokens : userpasswordmanager.TokenGenerator) :
    userpasswordmanager.Service :=
  { userRepo := UserRepository.answers rows
    passwordHasher := { Hash := fun password => .ok ("hash:" ++ password),
                        Verify := fun _ _ => none }
    tokenGenerator := tokens
    emailService := failingMail }

/-- Authentication service over a table holding alice, with a hasher that rejects every
password. -/
def strictAuthenticator : userauthenticator.Service :=
  { userRepo := UserRepository.answers [alice]
    passwordHasher := { Verify := fun _ _ => some "password mismatch" }
    tokenGenerator := { GenerateToken := fun userID _ => .ok ("access:" ++ userID),
                        GenerateRefreshToken := fun userID => .ok ("refresh:" ++ userID),
                        ValidateToken := fun _ => .error "invalid token" } }

/-- Login use case with the same collaborators as `strictAuthenticator`. -/
def strictLoginUseCase : usecases.LoginUserUseCase :=
  { userRepo := UserRepository.answers [alice]
    passwordHasher := { Hash := fun password => .ok ("hash:" ++ password),
                        Verify := fun _ _ => some "password mismatch" }
    tokenGenerator := { GenerateToken := fun userID _ => .ok ("access:" ++ userID),
                        GenerateRefreshToken := fun userID => .ok ("refresh:" ++ userID),
                        ValidateToken := fun _ => .error "invalid token" } }

/-! ## internal/domain/user/user_manager/service.go -/

namespace usermanager

/-- `type Service struct` of the package. -/
structure Service where
  userRepo : Repository

/-- `type ListInput struct`; the uint64 fields are natural numbers. -/
structure ListInput where
  Role : Option Role
  Limit : Nat
  Offset : Nat
deriving DecidableEq, Repr

/-- `type ListOutput struct`. -/
structure ListOutput where
  Users : List User
  TotalCount : Int
deriving DecidableEq, Repr

/-- `func (s *Service) checkAuthorization`; the result is the error, none for nil.  The
outer test is `!ok || currentUserID != targetUserID`; a failed role assertion leaves the
zero role. -/
def Service.checkAuthorization (_s : Service) (ctx : Context) (targetUserID : String) :
    Option String :=
  if ctx.userID ≠ some targetUserID then
    let currentRole := ctx.userRole.getD ""
    if currentRole ≠ Admin then some "unauthorized: cannot modify another user\x27s data"
    else none
  else none

/-- `func (s *Service) List`. -/
def Service.List (s : Service) (ctx : Context) (input : ListInput) :
    Except String ListOutput × List Call :=
  match ctx.userRole with
  | none => (.error "unauthorized: only admins can list users", [])
  | some currentRole =>
    if currentRole ≠ Admin then (.error "unauthorized: only admins can list users", [])
    else
      let input := if input.Limit = 0 then { input with Limit := 20 } else input
      let input := if input.Limit > 100 then { input with Limit := 100 } else input
      match s.userRepo.FindAll input.Role input.Limit input.Offset with
      | .error err =>
        (.error ("failed to retrieve users: " ++ err),
          [.FindAll input.Role input.Limit input.Offset])
      | .ok users =>
        match s.userRepo.Count input.Role with
        | .error err =>
          (.error ("failed to count users: " ++ err),
            [.FindAll input.Role input.Limit input.Offset, .Count input.Role])
        | .ok totalCount =>
          (.ok { Users := users, TotalCount := totalCount },
            [.FindAll input.Role input.Limit input.Offset, .Count input.Role])

end usermanager

/-! ## internal/usecases/user/list_users.go, delete_user.go

In `list_users.go` every declaration after `ListUsersInput` stands on the last line of the
file, its source lines joined in reverse order; the declarations are embedded in their
forward reading, which is line for line the body of `usermanager.Service.List`. -/

namespace usecases

/-- `type ListUsersInput struct`; the uint64 fields are natural numbers. -/
structure ListUsersInput where
  Role : Option Role
  Limit : Nat
  Offset : Nat
deriving DecidableEq, Repr

/-- `type ListUsersOutput struct`. -/
structure ListUsersOutput where
  Users : List User
  TotalCount : Int
deriving DecidableEq, Repr

/-- `type ListUsersUseCase struct`. -/
structure ListUsersUseCase where
  userRepo : Repository

/-- `func (uc *ListUsersUseCase) Execute`. -/
def ListUsersUseCase.Execute (uc : ListUsersUseCase) (ctx : Context) (input : ListUsersInput) :
    Except String ListUsersOutput × List Call :=
  match ctx.userRole with
  | none => (.error "unauthorized: only admins can list users", [])
  | some currentRole =>
    if currentRole ≠ Admin then (.error "unauthorized: only admins can list users", [])
    else
      let input := if input.Limit = 0 then { input with Limit := 20 } else input
      let input := if input.Limit > 100 then { input with Limit := 100 } else input
      match uc.userRepo.FindAll input.Role input.Limit input.Offset with
      | .error err =>
        (.error ("failed to retrieve users: " ++ err),
          [.FindAll input.Role input.Limit input.Offset])
      | .ok users =>
        match uc.userRepo.Count input.Role with
        | .error err =>
          (.error ("failed to count users: " ++ err),
            [.FindAll input.Role input.Limit input.Offset, .Count input.Role])
        | .ok totalCount =>
          (.ok { Users := users, TotalCount := totalCount },
            [.FindAll input.Role input.Limit input.Offset, .Count input.Role])

/-- `type DeleteUserUseCase struct`. -/
structure DeleteUserUseCase where
  userRepo : Repository

/-- `func (uc *DeleteUserUseCase) Execute`; the result is the returned error, none for nil.
The authorization test is `!ok || currentUserID != userID`, then
`currentRole != user.Admin` on the asserted role, the zero role when the assertion fails;
`denied` is the error of that block, none when the function goes on. -/
def DeleteUserUseCase.Execute (uc : DeleteUserUseCase) (ctx : Context) (userID : String) :
    Option String × List Call :=
  if userID = "" then (some "user ID is required", [])
  else
    let denied : Option String :=
      if ctx.userID ≠ some userID then
        let currentRole := ctx.userRole.getD ""
        if currentRole ≠ Admin then some "unauthorized: cannot delete another user\x27s account"
        else none
      else none
    match denied with
    | some err => (some err, [])
    | none =>
      match uc.userRepo.Exists userID with
      | .error err => (some ("failed to check user existence: " ++ err), [.Exists userID])
      | .ok found =>
        if !found then (some "user not found", [.Exists userID])
        else
          match uc.userRepo.DeleteByID userID with
          | some err =>
            (some ("failed to delete user: " ++ err), [.Exists userID, .DeleteByID userID])
          | none => (none, [.Exists userID, .DeleteByID userID])

end usecases

/-! ## internal/domain/user/user_password_manager/service.go (ChangePassword) -/

namespace userpasswordmanager

/-- `type ChangePasswordInput struct`. -/
structure ChangePasswordInput where
  UserID : String
  OldPassword : String
  NewPassword : String
deriving DecidableEq, Repr

/-- `func (s *Service) ChangePassword`; the result is the returned error, none for nil.
`len(input.NewPassword)` is the byte length; the authorization test is
`!ok || currentUserID != input.UserID`; the existence test is `err != nil || !exists`. -/
def Service.ChangePassword (s : Service) (ctx : Context) (input : ChangePasswordInput) :
    Option String × List Call :=
  if input.UserID = "" then (some "user ID is required", [])
  else if input.OldPassword = "" ∨ input.NewPassword = "" then
    (some "old and new passwords are required", [])
  else if input.NewPassword.utf8ByteSize < 8 then
    (some "new password must be at least 8 characters", [])
  else if ctx.userID ≠ some input.UserID then
    (some "unauthorized: cannot change another user\x27s password", [])
  else
    match s.userRepo.Exists input.UserID with
    | .error _ => (some "user not found", [.Exists input.UserID])
    | .ok found =>
      if !found then (some "user not found", [.Exists input.UserID])
      else
        match s.passwordHasher.Hash input.NewPassword with
        | .error err =>
          (some ("failed to hash password: " ++ err),
            [.Exists input.UserID, .Hash input.NewPassword])
        | .ok _ => (none, [.Exists input.UserID, .Hash input.NewPassword])

end userpasswordmanager

/-- Context of an authenticated admin with id root. -/
def adminContext : Context := fun key =>
  if key = "user_role" then some (.role Admin)
  else if key = "user_id" then some (.str "root")
  else none

/-- Context without any value: an unauthenticated caller. -/
def anonymousContext : Context := fun _ => none

/-- Registered host. -/
def bob : User :=
  { ID := "u2", Email := "bob@example.com", Phone := "", Role := Host, CreatedAt := 5 }

/-! ## Theorems -/

/-- C1 (as stated, refuted): a created booking of listing L with range 1..3 is returned for the
requested range 3..5 although the ranges do not intersect under half-open semantics (its
checkout equals the requested check-in). -/
theorem findOverlapping_returns_back_to_back :
    backToBack ∈ BookingRepository.FindOverlapping [backToBack] "L" 3 5 ∧
      ¬ halfOpenOverlap 3 5 backToBack := by
  decide

/-- C1 (amended): among the stored bookings of the listing that are not cancelled,
FindOverlapping returns exactly those with check_in <= checkOut and checkout >= checkIn,
both comparisons inclusive. -/
theorem findOverlapping_selects_closed (rows : List Booking) (listingID : String)
    (checkIn checkOut : Int) (b : Booking) (hb : b ∈ rows) (hl : b.ListingID = listingID)
    (hs : b.Status ≠ Cancelled) :
    b ∈ BookingRepository.FindOverlapping rows listingID checkIn checkOut ↔
      (b.CheckIn ≤ checkOut ∧ checkIn ≤ b.Checkout) := by
  simp [BookingRepository.FindOverlapping, BookingRepository.dateClause, hb, hl, hs]

/-- Witness for C1 (amended) at the back-to-back booking. -/
theorem findOverlapping_selects_closed_witness :
    backToBack ∈ BookingRepository.FindOverlapping [backToBack] "L" 3 5 ↔
      (backToBack.CheckIn ≤ 5 ∧ (3 : Int) ≤ backToBack.Checkout) :=
  findOverlapping_selects_closed [backToBack] "L" 3 5 backToBack (by decide) (by decide)
    (by decide)

/-- C2 (as stated, refuted): a completed booking is returned by FindOverlapping. -/
theorem findOverlapping_returns_completed :
    completedStay ∈ BookingRepository.FindOverlapping [completedStay] "L" 3 5 ∧
      completedStay.Status ≠ Created ∧ completedStay.Status ≠ Confirmed := by
  decide

/-- C2 (amended): every booking returned by FindOverlapping has a status different from
cancelled; completed bookings are not filtered out. -/
theorem findOverlapping_status_not_cancelled (rows : List Booking) (listingID : String)
    (checkIn checkOut : Int) (b : Booking)
    (hb : b ∈ BookingRepository.FindOverlapping rows listingID checkIn checkOut) :
    b.Status ≠ Cancelled := by
  simp [BookingRepository.FindOverlapping] at hb
  exact hb.2.2

/-- Witness for C2 (amended) at the completed stay. -/
theorem findOverlapping_status_not_cancelled_witness :
    completedStay ∈ BookingRepository.FindOverlapping [completedStay] "L" 3 5 ∧
      completedStay.Status ≠ Cancelled :=
  ⟨by decide, findOverlapping_status_not_cancelled [completedStay] "L" 3 5 completedStay
    (by decide)⟩

/-! ### Booking store invariants -/

theorem BookingRepository.save_of_fresh (rows : List Booking) (b : Booking)
    (h : ∀ r ∈ rows, r.ID ≠ b.ID) : BookingRepository.Save rows b = rows ++ [b] := by
  unfold BookingRepository.Save
  rw [if_neg]
  simpa using h

theorem BookingRepository.save_of_stored (rows : List Booking) (b : Booking)
    (h : ∃ r ∈ rows, r.ID = b.ID) :
    BookingRepository.Save rows b = rows.map fun r =>
      if r.ID = b.ID then
        { r with Status := b.Status, TotalPrice := b.TotalPrice, UpdatedAt := b.UpdatedAt }
      else r := by
  unfold BookingRepository.Save
  rw [if_pos]
  simpa using h

theorem BookingRepository.deleteByID_fst (rows : List Booking) (id : String) :
    (BookingRepository.DeleteByID rows id).1 = rows.filter fun r => decide (r.ID ≠ id) := by
  unfold BookingRepository.DeleteByID
  dsimp only
  split <;> rfl

theorem activeStatus_ne_cancelled (s : BookingStatus) (h : activeStatus s) : s ≠ Cancelled := by
  rcases h with h | h <;> subst h <;> decide

theorem BookingRepository.invariant_append (rows : List Booking) (b : Booking)
    (hU : BookingRepository.UniqueID rows) (hN : NoDoubleBooking rows)
    (hfresh : ∀ r ∈ rows, r.ID ≠ b.ID)
    (hfind : BookingRepository.FindOverlapping rows b.ListingID b.CheckIn b.Checkout = []) :
    BookingRepository.UniqueID (rows ++ [b]) ∧ NoDoubleBooking (rows ++ [b]) := by
  have hclear : ∀ r ∈ rows, r.ListingID = b.ListingID → activeStatus r.Status →
      ¬ (r.CheckIn ≤ b.Checkout ∧ b.CheckIn ≤ r.Checkout) := by
    intro r hr hl ha hov
    have hmem : r ∈ BookingRepository.FindOverlapping rows b.ListingID b.CheckIn b.Checkout := by
      simp [BookingRepository.FindOverlapping, BookingRepository.dateClause, hr, hl,
        activeStatus_ne_cancelled _ ha, hov.1, hov.2]
    rw [hfind] at hmem
    exact List.not_mem_nil _ hmem
  constructor
  · intro b1 h1 b2 h2 hid
    rcases List.mem_append.1 h1 with h1 | h1 <;> rcases List.mem_append.1 h2 with h2 | h2
    · exact hU b1 h1 b2 h2 hid
    · rw [List.mem_singleton.1 h2] at hid
      exact absurd hid (hfresh b1 h1)
    · rw [List.mem_singleton.1 h1] at hid
      exact absurd hid.symm (hfresh b2 h2)
    · rw [List.mem_singleton.1 h1, List.mem_singleton.1 h2]
  · intro b1 h1 b2 h2 hne hl ha1 ha2 hov
    rcases List.mem_append.1 h1 with h1 | h1 <;> rcases List.mem_append.1 h2 with h2 | h2
    · exact hN b1 h1 b2 h2 hne hl ha1 ha2 hov
    · rw [List.mem_singleton.1 h2] at hl hov
      exact hclear b1 h1 hl ha1 ⟨le_of_lt hov.1, le_of_lt hov.2⟩
    · rw [List.mem_singleton.1 h1] at hl hov
      exact hclear b2 h2 hl.symm ha2 ⟨le_of_lt hov.2, le_of_lt hov.1⟩
    · rw [List.mem_singleton.1 h1, List.mem_singleton.1 h2] at hne
      exact hne rfl

theorem BookingRepository.invariant_map (rows : List Booking) (f : Booking → Booking)
    (hid : ∀ r, (f r).ID = r.ID) (hl : ∀ r, (f r).ListingID = r.ListingID)
    (hci : ∀ r, (f r).CheckIn = r.CheckIn) (hco : ∀ r, (f r).Checkout = r.Checkout)
    (hact : ∀ r ∈ rows, activeStatus (f r).Status → activeStatus r.Status)
    (hU : BookingRepository.UniqueID rows) (hN : NoDoubleBooking rows) :
    BookingRepository.UniqueID (rows.map f) ∧ NoDoubleBooking (rows.map f) := by
  constructor
  · intro b1 h1 b2 h2 hEq
    obtain ⟨r1, hr1, rfl⟩ := List.mem_map.1 h1
    obtain ⟨r2, hr2, rfl⟩ := List.mem_map.1 h2
    rw [hid, hid] at hEq
    rw [hU r1 hr1 r2 hr2 hEq]
  · intro b1 h1 b2 h2 hne hls ha1 ha2 hov
    obtain ⟨r1, hr1, rfl⟩ := List.mem_map.1 h1
    obtain ⟨r2, hr2, rfl⟩ := List.mem_map.1 h2
    rw [hl, hl] at hls
    rw [hci, hco, hci, hco] at hov
    have hne2 : r1 ≠ r2 := fun h => hne (by rw [h])
    exact hN r1 hr1 r2 hr2 hne2 hls (hact r1 hr1 ha1) (hact r2 hr2 ha2) hov

theorem BookingRepository.invariant_filter (rows : List Booking) (p : Booking → Bool)
    (hU : BookingRepository.UniqueID rows) (hN : NoDoubleBooking rows) :
    BookingRepository.UniqueID (rows.filter p) ∧ NoDoubleBooking (rows.filter p) :=
  ⟨fun b1 h1 b2 h2 => hU b1 (List.mem_of_mem_filter h1) b2 (List.mem_of_mem_filter h2),
   fun b1 h1 b2 h2 => hN b1 (List.mem_of_mem_filter h1) b2 (List.mem_of_mem_filter h2)⟩

theorem BookingRepository.guarded_invariant (rows : List Booking)
    (h : BookingRepository.Guarded rows) :
    BookingRepository.UniqueID rows ∧ NoDoubleBooking rows := by
  induction h with
  | empty => exact ⟨fun _ h => absurd h (List.not_mem_nil _), fun _ h => absurd h (List.not_mem_nil _)⟩
  | insertNew rows b _ hfresh hfind ih =>
    rw [BookingRepository.save_of_fresh rows b hfresh]
    exact BookingRepository.invariant_append rows b ih.1 ih.2 hfresh hfind
  | update rows b _ hex hguard ih =>
    rw [BookingRepository.save_of_stored rows b hex]
    refine BookingRepository.invariant_map rows _ ?_ ?_ ?_ ?_ ?_ ih.1 ih.2
    · intro r; dsimp only; split <;> rfl
    · intro r; dsimp only; split <;> rfl
    · intro r; dsimp only; split <;> rfl
    · intro r; dsimp only; split <;> rfl
    · intro r hr
      dsimp only
      split
      · next hrid => exact hguard r hr hrid
      · exact id
  | delete rows id _ ih =>
    rw [BookingRepository.deleteByID_fst]
    exact BookingRepository.invariant_filter rows _ ih.1 ih.2

/-- C3 (as stated, refuted): two Save calls from the empty store leave two distinct created
bookings of listing L with ranges 1..3 and 2..4. -/
theorem save_reaches_double_booking :
    BookingRepository.Reachable
        (BookingRepository.Save (BookingRepository.Save [] backToBack) secondStay) ∧
      ¬ NoDoubleBooking
        (BookingRepository.Save (BookingRepository.Save [] backToBack) secondStay) :=
  ⟨.save _ _ (.save _ _ .empty), by decide⟩

/-- C3 (amended): in every state reachable from the empty store by DeleteByID and by Save
calls that either admit a booking with a new id after FindOverlapping for its listing and
range returned no booking, or update a stored booking without turning a booking that is not
created or confirmed into a created or confirmed one, no two distinct bookings of the same
listing with status created or confirmed have intersecting half-open ranges. -/
theorem guarded_no_double_booking (rows : List Booking)
    (h : BookingRepository.Guarded rows) : NoDoubleBooking rows :=
  (BookingRepository.guarded_invariant rows h).2

/-- Witness for C3 (amended): two admitted stays of listing L, 1..3 and 5..7. -/
theorem guarded_no_double_booking_witness :
    NoDoubleBooking (BookingRepository.Save (BookingRepository.Save [] backToBack) laterStay) :=
  guarded_no_double_booking _
    (.insertNew _ _ (.insertNew _ _ .empty (by decide) (by decide)) (by decide) (by decide))

/-! ### Availability store -/

theorem AvailabilityRepository.rangeClause_filter (rows : List Availability)
    (listingID : String) (startDate endDate : Int) :
    rows.filter (AvailabilityRepository.rangeClause listingID startDate endDate) =
      rows.filter fun a =>
        decide (a.ListingID = listingID ∧ startDate ≤ a.Date ∧ a.Date ≤ endDate) := by
  congr 1
  funext a
  simp [AvailabilityRepository.rangeClause, Bool.and_assoc]

theorem AvailabilityRepository.mem_findByListingIDAndDateRange (rows : List Availability)
    (listingID : String) (startDate endDate : Int) (a : Availability) :
    a ∈ AvailabilityRepository.FindByListingIDAndDateRange rows listingID startDate endDate ↔
      a ∈ rows ∧ a.ListingID = listingID ∧ startDate ≤ a.Date ∧ a.Date ≤ endDate := by
  unfold AvailabilityRepository.FindByListingIDAndDateRange
  rw [(List.perm_insertionSort Availability.dateLE _).mem_iff,
    AvailabilityRepository.rangeClause_filter]
  simp

/-- C8: FindByListingIDAndDateRange returns exactly the stored records of the given listing
whose date lies between startDate and endDate, both bounds included: the result is a
rearrangement of those records, so it holds no record of another listing. -/
theorem findByListingIDAndDateRange_exact (rows : List Availability) (listingID : String)
    (startDate endDate : Int) :
    (AvailabilityRepository.FindByListingIDAndDateRange rows listingID startDate endDate).Perm
        (rows.filter fun a =>
          decide (a.ListingID = listingID ∧ startDate ≤ a.Date ∧ a.Date ≤ endDate)) ∧
      ∀ a, a ∈ AvailabilityRepository.FindByListingIDAndDateRange rows listingID startDate
            endDate ↔
          a ∈ rows ∧ a.ListingID = listingID ∧ startDate ≤ a.Date ∧ a.Date ≤ endDate := by
  refine ⟨?_, AvailabilityRepository.mem_findByListingIDAndDateRange rows listingID startDate
    endDate⟩
  rw [← AvailabilityRepository.rangeClause_filter]
  exact List.perm_insertionSort Availability.dateLE _

/-- C9: the list returned by FindByListingIDAndDateRange is sorted by date, ascending. -/
theorem findByListingIDAndDateRange_sorted (rows : List Availability) (listingID : String)
    (startDate endDate : Int) :
    (AvailabilityRepository.FindByListingIDAndDateRange rows listingID startDate endDate).Sorted
      fun a b => a.Date ≤ b.Date :=
  List.sorted_insertionSort Availability.dateLE _

theorem AvailabilityRepository.save_ids (rows : List Availability) (a : Availability)
    (h : (rows.map fun r => r.ID).Nodup) :
    ((AvailabilityRepository.Save rows a).map fun r => r.ID).Nodup := by
  unfold AvailabilityRepository.Save
  split
  · have hmap : ∀ l : List Availability, ((l.map fun r =>
        if r.ID = a.ID then
          { r with Date := a.Date, IsAvailable := a.IsAvailable,
                   PriceOverride := a.PriceOverride, ListingID := a.ListingID }
        else r).map fun r => r.ID) = l.map fun r => r.ID := by
      intro l
      rw [List.map_map]
      apply List.map_congr_left
      intro r _
      simp only [Function.comp]
      split <;> rfl
    rw [hmap]
    exact h
  · next hfresh =>
    rw [List.map_append, List.map_singleton]
    refine List.Nodup.append h (List.nodup_singleton _) ?_
    intro x hx hx2
    rw [List.mem_singleton.1 hx2] at hx
    obtain ⟨r, hr, hrid⟩ := List.mem_map.1 hx
    exact hfresh (List.any_eq_true.2 ⟨r, hr, by simpa using hrid⟩)

theorem AvailabilityRepository.foldl_save_ids (batch rows : List Availability)
    (h : (rows.map fun r => r.ID).Nodup) :
    ((batch.foldl AvailabilityRepository.Save rows).map fun r => r.ID).Nodup := by
  induction batch generalizing rows with
  | nil => exact h
  | cons a batch ih => exact ih _ (AvailabilityRepository.save_ids rows a h)

theorem AvailabilityRepository.reachable_ids (rows : List Availability)
    (h : AvailabilityRepository.Reachable rows) : (rows.map fun r => r.ID).Nodup := by
  induction h with
  | empty => exact List.nodup_nil
  | save rows a _ ih => exact AvailabilityRepository.save_ids rows a ih
  | saveMany rows batch _ ih =>
    unfold AvailabilityRepository.SaveMany
    split
    · exact ih
    · split
      · exact AvailabilityRepository.foldl_save_ids batch rows ih
      · exact ih
  | delete rows id _ ih =>
    have hfst : (AvailabilityRepository.DeleteByID rows id).1 =
        rows.filter fun r => decide (r.ID ≠ id) := by
      unfold AvailabilityRepository.DeleteByID
      dsimp only
      split <;> rfl
    rw [hfst]
    exact (List.filter_sublist rows).map _ |>.nodup ih

theorem AvailabilityRepository.recordsWithID_length (rows : List Availability) (id : String)
    (h : (rows.map fun r => r.ID).Nodup) :
    (AvailabilityRepository.recordsWithID rows id).length ≤ 1 := by
  unfold AvailabilityRepository.recordsWithID
  induction rows with
  | nil => simp
  | cons a rows ih =>
    rw [List.map_cons, List.nodup_cons] at h
    by_cases ha : a.ID = id
    · have hnone : rows.filter (fun r => decide (r.ID = id)) = [] := by
        rw [List.filter_eq_nil_iff]
        intro r hr hrid
        exact h.1 (List.mem_map.2 ⟨r, hr, by rw [of_decide_eq_true hrid, ha]⟩)
      simp [List.filter_cons, ha, hnone]
    · simpa [List.filter_cons, ha] using ih h.2

/-- C10 (as stated, refuted): two Save calls from the empty store leave two records for
listing L and day 10. -/
theorem save_reaches_two_records_for_one_date :
    AvailabilityRepository.Reachable
        (AvailabilityRepository.Save (AvailabilityRepository.Save [] day10Open) day10Blocked) ∧
      (AvailabilityRepository.recordsFor
        (AvailabilityRepository.Save (AvailabilityRepository.Save [] day10Open) day10Blocked)
        "L" 10).length = 2 :=
  ⟨.save _ _ (.save _ _ .empty), by decide⟩

/-- C10 (amended): in every state of the availability store reachable from the empty store
by Save, SaveMany and DeleteByID there is at most one availability record per id. -/
theorem reachable_one_record_per_id (rows : List Availability) (id : String)
    (h : AvailabilityRepository.Reachable rows) :
    (AvailabilityRepository.recordsWithID rows id).length ≤ 1 :=
  AvailabilityRepository.recordsWithID_length rows id
    (AvailabilityRepository.reachable_ids rows h)

/-- Witness for C10 (amended): after saving day 10 under id a1 twice and under id a2 once,
one record has id a1. -/
theorem reachable_one_record_per_id_witness :
    (AvailabilityRepository.recordsWithID
      (AvailabilityRepository.Save
        (AvailabilityRepository.Save (AvailabilityRepository.Save [] day10Open) day10Blocked)
        day10Open) "a1").length ≤ 1 :=
  reachable_one_record_per_id _ "a1" (.save _ _ (.save _ _ (.save _ _ .empty)))

/-! ### Pricing -/

theorem ico_eq_insert (s e : Int) (h : s < e) :
    Finset.Ico s e = insert s (Finset.Ico (s + 1) e) := by
  ext x
  simp only [Finset.mem_Ico, Finset.mem_insert]
  omega

theorem priceLoop_eq_sum (l : Listing) (overrides : List Availability) (days : Nat) :
    ∀ (d e acc : Int), e - d = days →
      priceLoop l overrides d days acc =
        acc + ∑ x ∈ Finset.Ico d e, effectivePrice l overrides x := by
  induction days with
  | zero =>
    intro d e acc h
    have hde : e ≤ d := by omega
    simp [priceLoop, Finset.Ico_eq_empty_of_le hde]
  | succ n ih =>
    intro d e acc h
    have hlt : d < e := by omega
    have hnot : d ∉ Finset.Ico (d + 1) e := by simp
    rw [priceLoop, ih (d + 1) e _ (by omega), ico_eq_insert d e hlt,
      Finset.sum_insert hnot]
    ring

/-- C4: ComputePrice fails with InvalidRangeError when endDate <= startDate, and for
endDate > startDate it returns the sum over the dates d of [startDate, endDate) of the
override price of d when an override entry covers d and of the base price per day of the
listing otherwise. -/
theorem computePrice_sum_of_effective_prices (l : Listing) (startDate endDate : Int)
    (overrides : List Availability) :
    (endDate ≤ startDate →
      ComputePrice l startDate endDate overrides = .error .InvalidRangeError) ∧
    (startDate < endDate →
      ComputePrice l startDate endDate overrides =
        .ok (∑ d ∈ Finset.Ico startDate endDate,
          match overrides.find? fun a => decide (a.Date = d) && decide (a.PriceOverride ≠ 0) with
          | some a => a.PriceOverride
          | none => l.PricePerDay)) := by
  constructor
  · intro h
    simp [ComputePrice, h]
  · intro h
    have hn : endDate - startDate = ((endDate - startDate).toNat : Int) :=
      (Int.toNat_of_nonneg (by omega)).symm
    have hloop := priceLoop_eq_sum l overrides (endDate - startDate).toNat startDate endDate 0 hn
    unfold ComputePrice
    rw [if_neg (not_le.2 h), hloop, zero_add]
    rfl

/-- Witness for C4: base price 10000, days 10 to 12, no overrides, total 20000. -/
theorem computePrice_sum_of_effective_prices_witness :
    ComputePrice scenarioListing 10 12 [] = .ok 20000 ∧
      ComputePrice scenarioListing 12 12 [] = .error .InvalidRangeError := by
  refine ⟨?_, (computePrice_sum_of_effective_prices scenarioListing 12 12 []).1 (by decide)⟩
  rw [(computePrice_sum_of_effective_prices scenarioListing 10 12 []).2 (by decide)]
  simp [scenarioListing]

/-! ### Lifecycle -/

/-- C6: the state machine allows exactly created->confirmed, created->cancelled,
confirmed->cancelled before the check-in date and confirmed->completed after the checkout
date, and the booking then carries the target status; confirmed->cancelled from the check-in
date on fails with TooLateToCancelError, confirmed->completed up to the checkout date fails
with PrematureCompletionError, and every other change, including any change out of cancelled
or completed, fails with InvalidTransitionError. -/
theorem transition_table (b : Booking) (target : BookingStatus) (now : Int) :
    ((∃ r, Transition b target now = .ok r) ↔
      (b.Status = Created ∧ target = Confirmed) ∨ (b.Status = Created ∧ target = Cancelled) ∨
      (b.Status = Confirmed ∧ target = Cancelled ∧ now < b.CheckIn) ∨
      (b.Status = Confirmed ∧ target = Completed ∧ b.Checkout < now)) ∧
    (∀ r, Transition b target now = .ok r → r.Status = target) ∧
    (Transition b target now = .error .TooLateToCancelError ↔
      b.Status = Confirmed ∧ target = Cancelled ∧ ¬ now < b.CheckIn) ∧
    (Transition b target now = .error .PrematureCompletionError ↔
      b.Status = Confirmed ∧ target = Completed ∧ ¬ b.Checkout < now) ∧
    (Transition b target now = .error .InvalidTransitionError ↔
      ¬ ((b.Status = Created ∧ target = Confirmed) ∨ (b.Status = Created ∧ target = Cancelled) ∨
         (b.Status = Confirmed ∧ target = Cancelled) ∨
         (b.Status = Confirmed ∧ target = Completed))) ∧
    (b.Status = Cancelled ∨ b.Status = Completed →
      Transition b target now = .error .InvalidTransitionError) := by
  have h1 : Created ≠ Confirmed := by decide
  have h2 : Confirmed ≠ Created := by decide
  have h3 : Cancelled ≠ Completed := by decide
  have h4 : Completed ≠ Cancelled := by decide
  have h5 : Confirmed ≠ Cancelled := by decide
  have h6 : Cancelled ≠ Created := by decide
  have h7 : Completed ≠ Created := by decide
  have h8 : Completed ≠ Confirmed := by decide
  have h9 : Created ≠ Cancelled := by decide
  have h10 : Created ≠ Completed := by decide
  have h11 : Confirmed ≠ Completed := by decide
  unfold Transition
  split_ifs <;> simp_all

/-! ### Admission -/

theorem calendar_clear_iff (calendar : List Availability) (listingID : String)
    (checkIn checkout : Int) :
    ((AvailabilityRepository.FindByListingIDAndDateRange calendar listingID checkIn
        (checkout - 1)).find? fun a => !a.IsAvailable) = none ↔
      ∀ a ∈ calendar, a.ListingID = listingID → checkIn ≤ a.Date → a.Date < checkout →
        a.IsAvailable = true := by
  rw [List.find?_eq_none]
  constructor
  · intro h a ha hl h1 h2
    have hmem := (AvailabilityRepository.mem_findByListingIDAndDateRange calendar listingID
      checkIn (checkout - 1) a).2 ⟨ha, hl, h1, by omega⟩
    simpa using h a hmem
  · intro h a ha
    obtain ⟨hr, hl, h1, h2⟩ := (AvailabilityRepository.mem_findByListingIDAndDateRange calendar
      listingID checkIn (checkout - 1) a).1 ha
    simp [h a hr hl h1 (by omega)]

theorem conflicts_none_iff (bookings : List Booking) (listingID : String)
    (checkIn checkout : Int) :
    ((BookingRepository.FindOverlapping bookings listingID checkIn checkout).filter
        fun b => decide (activeStatus b.Status) &&
          decide (halfOpenOverlap checkIn checkout b)).head? = none ↔
      ∀ b ∈ bookings, b.ListingID = listingID → activeStatus b.Status →
        ¬ halfOpenOverlap checkIn checkout b := by
  rw [List.head?_eq_none_iff, List.filter_eq_nil_iff]
  constructor
  · intro h b hb hl ha hov
    have hmem : b ∈ BookingRepository.FindOverlapping bookings listingID checkIn checkout := by
      have h1 : b.CheckIn ≤ checkout := le_of_lt hov.2
      have h2 : checkIn ≤ b.Checkout := le_of_lt hov.1
      simp [BookingRepository.FindOverlapping, BookingRepository.dateClause, hb, hl,
        activeStatus_ne_cancelled _ ha, h1, h2]
    exact h b hmem (by simp [ha, hov])
  · intro h b hb hcond
    have hrow : b ∈ bookings ∧ b.ListingID = listingID := by
      simp [BookingRepository.FindOverlapping] at hb
      exact ⟨hb.1, hb.2.1.1⟩
    simp only [Bool.and_eq_true, decide_eq_true_eq] at hcond
    exact h b hrow.1 hrow.2 hcond.1 hcond.2

/-- C5: RequestBooking with checkIn >= checkout fails with InvalidStayLengthError; and for a
published listing (min stay above zero) and a stay whose length is within the min/max bounds
of the listing, RequestBooking succeeds if and only if no calendar date of the listing in
[checkIn, checkout) is marked unavailable and no booking of the listing with status created
or confirmed overlaps [checkIn, checkout). -/
theorem requestBooking_succeeds_iff (listings : List Listing) (calendar : List Availability)
    (bookings : List Booking) (newID : String) (now : Int) (listingID userID : String)
    (checkIn checkout : Int) :
    (checkout ≤ checkIn →
      RequestBooking listings calendar bookings newID now listingID userID checkIn checkout =
        .error .InvalidStayLengthError) ∧
    (∀ l, ListingRepository.FindByID listings listingID = some l → l.Status = Published →
      0 < l.MinStayDays → l.MinStayDays ≤ checkout - checkIn →
      checkout - checkIn ≤ l.MaxStayDays →
      ((∃ r, RequestBooking listings calendar bookings newID now listingID userID checkIn
          checkout = .ok r) ↔
        (∀ a ∈ calendar, a.ListingID = listingID → checkIn ≤ a.Date → a.Date < checkout →
          a.IsAvailable = true) ∧
        (∀ b ∈ bookings, b.ListingID = listingID → activeStatus b.Status →
          ¬ halfOpenOverlap checkIn checkout b))) := by
  constructor
  · intro h
    simp [RequestBooking, h]
  · intro l hfind hpub hmin hlo hhi
    have hlt : ¬ checkout ≤ checkIn := by omega
    have hbounds : ¬ (checkout - checkIn < l.MinStayDays ∨ l.MaxStayDays < checkout - checkIn) := by
      omega
    have hprice : ComputePrice l checkIn checkout
        (AvailabilityRepository.FindByListingIDAndDateRange calendar listingID checkIn
          (checkout - 1)) = .ok (priceLoop l
        (AvailabilityRepository.FindByListingIDAndDateRange calendar listingID checkIn
          (checkout - 1)) checkIn (checkout - checkIn).toNat 0) := by
      simp [ComputePrice, hlt]
    rw [← calendar_clear_iff, ← conflicts_none_iff]
    unfold RequestBooking
    rw [if_neg hlt, hfind]
    dsimp only
    rw [if_neg hbounds, if_neg (not_not.2 hpub)]
    cases hcal : (AvailabilityRepository.FindByListingIDAndDateRange calendar listingID checkIn
        (checkout - 1)).find? fun a => !a.IsAvailable with
    | some a => simp
    | none =>
      cases hconf : ((BookingRepository.FindOverlapping bookings listingID checkIn
          checkout).filter fun b => decide (activeStatus b.Status) &&
            decide (halfOpenOverlap checkIn checkout b)).head? with
      | some b => simp
      | none => simp [hprice]

/-- Witness for C5: on the scenario listing with an empty calendar and no bookings, the stay
10..12 is admitted, and the request 12..12 fails with InvalidStayLengthError. -/
theorem requestBooking_succeeds_iff_witness :
    (∃ r, RequestBooking [scenarioListing] [] [] "b9" 0 "L" "u1" 10 12 = .ok r) ∧
      RequestBooking [scenarioListing] [] [] "b9" 0 "L" "u1" 12 12 =
        .error .InvalidStayLengthError :=
  ⟨((requestBooking_succeeds_iff [scenarioListing] [] [] "b9" 0 "L" "u1" 10 12).2
      scenarioListing rfl rfl (by decide) (by decide) (by decide)).2
      ⟨fun _ h => absurd h (List.not_mem_nil _), fun _ h => absurd h (List.not_mem_nil _)⟩,
   (requestBooking_succeeds_iff [scenarioListing] [] [] "b9" 0 "L" "u1" 12 12).1 (by decide)⟩

/-! ### Hard delete and listing immutability -/

theorem ListingRepository.findByID_save (rows : List Listing) (l stored : Listing)
    (h : ListingRepository.FindByID rows l.ID = some stored) :
    ListingRepository.FindByID (ListingRepository.Save rows l) l.ID =
      some { stored with Title := l.Title, Description := l.Description,
                         PricePerDay := l.PricePerDay, MinStayDays := l.MinStayDays,
                         MaxStayDays := l.MaxStayDays, Status := l.Status,
                         UpdatedAT := l.UpdatedAT } := by
  have hany : rows.any (fun r => decide (r.ID = l.ID)) = true := by
    unfold ListingRepository.FindByID at h
    cases hf : rows.find? fun r => decide (r.ID = l.ID) with
    | none => rw [hf] at h; simp at h
    | some r =>
      have := List.find?_some hf
      exact List.any_eq_true.2 ⟨r, List.mem_of_find?_eq_some hf, this⟩
  unfold ListingRepository.Save
  rw [if_pos hany]
  clear hany
  unfold ListingRepository.FindByID at h ⊢
  induction rows with
  | nil => simp at h
  | cons r rows ih =>
    by_cases hr : r.ID = l.ID
    · simp only [List.map_cons, List.find?_cons, hr, decide_True, if_true, Option.map_some']
        at h ⊢
      rw [← Option.some.inj h]
    · simp only [List.map_cons, List.find?_cons, hr, decide_False, if_false] at h ⊢
      exact ih h

/-- C11 (as stated, refuted): DeleteByID on the stored booking b1 succeeds and leaves a store
without that record. -/
theorem deleteByID_removes_the_record :
    backToBack ∈ [backToBack] ∧
      (BookingRepository.DeleteByID [backToBack] "b1").2 = none ∧
      backToBack ∉ (BookingRepository.DeleteByID [backToBack] "b1").1 ∧
      (BookingRepository.DeleteByID [backToBack] "b1").1 = [] := by
  decide

theorem Booking.none_removed_iff (rows : List Booking) (id : String) :
    rows.length - (rows.filter fun r => decide (r.ID ≠ id)).length = 0 ↔
      ∀ r ∈ rows, r.ID ≠ id := by
  have hle := List.length_filter_le (fun r : Booking => decide (r.ID ≠ id)) rows
  constructor
  · intro h r hr
    have heq : (rows.filter fun r => decide (r.ID ≠ id)).length = rows.length := by omega
    simpa using List.filter_length_eq_length.1 heq r hr
  · intro h
    have heq : (rows.filter fun r => decide (r.ID ≠ id)).length = rows.length :=
      List.filter_length_eq_length.2 fun r hr => by simpa using h r hr
    omega

/-- C11 (amended): after Save every stored booking record is still present with its id, user
id, listing, dates and created_at, a record of another id being kept as it is and the record
of the saved id taking only status, total price and updated_at; DeleteByID removes the
record: afterwards no record of the given id is left, the records of every other id are kept
and nothing is added, and it returns the error `booking not found` exactly when no record had
that id. -/
theorem save_keeps_deleteByID_removes (rows : List Booking) (b : Booking) (id : String) :
    (∀ r ∈ rows, ∃ k ∈ BookingRepository.Save rows b,
      k.ID = r.ID ∧ k.UserID = r.UserID ∧ k.ListingID = r.ListingID ∧
        k.CheckIn = r.CheckIn ∧ k.Checkout = r.Checkout ∧ k.CreatedAt = r.CreatedAt ∧
        (r.ID ≠ b.ID → k = r) ∧
        (r.ID = b.ID →
          k.Status = b.Status ∧ k.TotalPrice = b.TotalPrice ∧ k.UpdatedAt = b.UpdatedAt)) ∧
    (∀ r ∈ (BookingRepository.DeleteByID rows id).1, r.ID ≠ id ∧ r ∈ rows) ∧
    (∀ r ∈ rows, r.ID ≠ id → r ∈ (BookingRepository.DeleteByID rows id).1) ∧
    ((∀ r ∈ rows, r.ID ≠ id) →
      (BookingRepository.DeleteByID rows id).2 = some "booking not found") ∧
    ((∃ r ∈ rows, r.ID = id) → (BookingRepository.DeleteByID rows id).2 = none) := by
  refine ⟨?_, ?_, ?_, ?_, ?_⟩
  · intro r hr
    unfold BookingRepository.Save
    split
    · refine ⟨_, List.mem_map.2 ⟨r, hr, rfl⟩, ?_⟩
      by_cases hid : r.ID = b.ID <;> simp [hid]
    · next hfresh =>
      have hid : r.ID ≠ b.ID := fun e =>
        hfresh (List.any_eq_true.2 ⟨r, hr, by simpa using e⟩)
      exact ⟨r, List.mem_append_left _ hr, rfl, rfl, rfl, rfl, rfl, rfl, fun _ => rfl,
        fun h => absurd h hid⟩
  · intro r hr
    unfold BookingRepository.DeleteByID at hr
    dsimp only at hr
    have hmem : r ∈ rows.filter fun r => decide (r.ID ≠ id) := by
      split at hr <;> exact hr
    exact ⟨by simpa using (List.mem_filter.1 hmem).2, (List.mem_filter.1 hmem).1⟩
  · intro r hr hne
    have hmem : r ∈ rows.filter fun r => decide (r.ID ≠ id) :=
      List.mem_filter.2 ⟨hr, by simpa using hne⟩
    unfold BookingRepository.DeleteByID
    dsimp only
    split <;> exact hmem
  · intro h
    unfold BookingRepository.DeleteByID
    dsimp only
    rw [if_pos ((Booking.none_removed_iff rows id).2 h)]
  · intro h
    have hsome : ¬ (rows.length - (rows.filter fun r => decide (r.ID ≠ id)).length = 0) := by
      intro h0
      obtain ⟨r, hr, hid⟩ := h
      exact (Booking.none_removed_iff rows id).1 h0 r hr hid
    unfold BookingRepository.DeleteByID
    dsimp only
    rw [if_neg hsome]

/-- C12 (as stated, refuted): the stored listing L has status deleted; Save of a listing
value with the same id leaves it published under a new title. -/
theorem save_changes_a_deleted_listing :
    (ListingRepository.FindByID [deletedListing] "L").map (fun l => (l.Status, l.Title)) =
        some (Deleted, "Flat") ∧
      relistedListing.ID = "L" ∧
      (ListingRepository.FindByID (ListingRepository.Save [deletedListing] relistedListing)
          "L").map (fun l => (l.Status, l.Title)) = some (Published, "Flat, relisted") := by
  decide

/-- C12 (amended): for every stored listing, whatever its status, and every listing value l
with the same id, Save(l) overwrites title, description, price per day, min and max stay
days, status and updated_at with those of l and leaves id, publisher id, host id and
created_at as stored. -/
theorem save_overwrites_stored_listing (rows : List Listing) (l stored : Listing)
    (h : ListingRepository.FindByID rows l.ID = some stored) :
    ListingRepository.FindByID (ListingRepository.Save rows l) l.ID =
      some { ID := stored.ID, Title := l.Title, Description := l.Description,
             PricePerDay := l.PricePerDay, MinStayDays := l.MinStayDays,
             MaxStayDays := l.MaxStayDays, Status := l.Status,
             ImagesIDs := stored.ImagesIDs, Address := stored.Address,
             PublisherID := stored.PublisherID, HostID := stored.HostID,
             CreatedAt := stored.CreatedAt, UpdatedAT := l.UpdatedAT } :=
  ListingRepository.findByID_save rows l stored h

/-- Witness for C12 (amended) at the deleted listing L. -/
theorem save_overwrites_stored_listing_witness :
    ListingRepository.FindByID (ListingRepository.Save [deletedListing] relistedListing)
        relistedListing.ID =
      some { ID := "L", Title := "Flat, relisted", Description := "", PricePerDay := 10000,
             MinStayDays := 2, MaxStayDays := 14, Status := Published, ImagesIDs := [],
             Address := Address.zeroValue, PublisherID := "h", HostID := "h",
             CreatedAt := 0, UpdatedAT := 9 } :=
  save_overwrites_stored_listing [deletedListing] relistedListing deletedListing rfl

/-- C13 (code at the failing input): the constant Published is the string "Published", so
the status string "published" differs from it, while Draft, Blocked and Deleted are the
lower-case strings. -/
theorem published_constant_is_capitalised :
    Published = "Published" ∧ ("published" : Status) ≠ Published ∧
      Draft = "draft" ∧ Blocked = "blocked" ∧ Deleted = "deleted" := by
  decide

/-! ### User creation and roles -/

theorem usercreator.create_role (s : usercreator.Service) (now : Int)
    (input : usercreator.CreateInput) (u : User) (trace : List Call)
    (h : s.Create now input = (.ok u, trace)) :
    u.Role = if input.Role = "" then Guest else input.Role := by
  unfold usercreator.Service.Create at h
  split_ifs at h <;> simp only [Prod.mk.injEq, reduceCtorEq, false_and] at h
  all_goals
    split at h
    · simp at h
    · split at h
      · simp at h
      · split at h
        · simp at h
        · simp only [Prod.mk.injEq, Except.ok.injEq] at h
          rw [← h.1]
          simp_all

/-- C14 (code at the failing input): Create with the role string "owner" succeeds, saves and
returns a user whose role is "owner", none of guest, host and admin. -/
theorem create_returns_undeclared_role :
    usercreator.Service.Create creatorService 0 ownerInput =
        (.ok { ID := "", Email := "owner@example.com", Phone := "", Role := "owner",
               CreatedAt := 0 },
         [.FindByEmail "owner@example.com", .Hash "correct horse",
          .Save { ID := "", Email := "owner@example.com", Phone := "", Role := "owner",
                  CreatedAt := 0 }]) ∧
      ("owner" : Role) ≠ Guest ∧ ("owner" : Role) ≠ Host ∧ ("owner" : Role) ≠ Admin :=
  ⟨rfl, by decide, by decide, by decide⟩

/-- C15: the role manager allows Host -> Admin, the use case does not, and on every other
pair of role strings, declared or not, the two transition tables agree. -/
theorem role_tables_differ_only_on_host_admin :
    userrolemanager.isValidRoleTransition Host Admin = true ∧
      usecases.isValidRoleTransition Host Admin = false ∧
      ∀ fromRole toRole : Role, ¬ (fromRole = Host ∧ toRole = Admin) →
        userrolemanager.isValidRoleTransition fromRole toRole =
          usecases.isValidRoleTransition fromRole toRole := by
  refine ⟨by decide, by decide, ?_⟩
  intro fromRole toRole h
  unfold userrolemanager.isValidRoleTransition usecases.isValidRoleTransition
    userrolemanager.validTransitions usecases.validTransitions
  by_cases hG : fromRole = Guest
  · have e1 : (fromRole == Guest) = true := by simpa using hG
    simp [List.lookup, e1]
  · have e1 : (fromRole == Guest) = false := by simpa using hG
    by_cases hH : fromRole = Host
    · have e2 : (fromRole == Host) = true := by simpa using hH
      have hne : ¬ Admin = toRole := fun e => h ⟨hH, e.symm⟩
      simp [List.lookup, e1, e2, hne]
    · have e2 : (fromRole == Host) = false := by simpa using hH
      by_cases hA : fromRole = Admin
      · have e3 : (fromRole == Admin) = true := by simpa using hA
        simp [List.lookup, e1, e2, e3]
      · have e3 : (fromRole == Admin) = false := by simpa using hA
        simp [List.lookup, e1, e2, e3]

/-! ### Registration, password reset and login -/

/-- C16 (code at the failing input): a registration whose password has four characters,
eight bytes long, passes the check that reports `password must be at least 8 characters`;
the repository is queried and the user saved. -/
theorem register_accepts_four_character_password :
    fourCharacterInput.Password.length = 4 ∧
      registerUseCase.Execute "id-1" 0 fourCharacterInput =
        (.ok { User := { ID := "id-1", Email := "bob@example.com", Phone := "", Role := Guest,
                         CreatedAt := 0 },
               Token := "access:id-1" },
         [.FindByEmail "bob@example.com", .Hash "éééé",
          .Save { ID := "id-1", Email := "bob@example.com", Phone := "", Role := Guest,
                  CreatedAt := 0 },
          .GenerateToken "id-1" Guest, .SendVerificationEmail "bob@example.com" "id-1"]) :=
  ⟨by decide, rfl⟩

/-- Validation errors touch no storage: for every registration input with an empty email, an
empty password, a password of fewer than 8 bytes or a role other than guest and host, Execute
returns an invalid-input error and makes no collaborator call: no FindByEmail, no Save, no
Hash, no GenerateToken, no email. -/
theorem register_validation_makes_no_call (uc : usecases.RegisterUserUseCase)
    (newUUID : String) (now : Int) (input : usecases.RegisterUserInput)
    (h : input.Email = "" ∨ input.Password = "" ∨ input.Password.utf8ByteSize < 8 ∨
      (input.Role ≠ Guest ∧ input.Role ≠ Host)) :
    ∃ err, uc.Execute newUUID now input = (.error ("invalid input: " ++ err), []) := by
  have hv : ∃ err, uc.validateInput input = some err := by
    unfold usecases.RegisterUserUseCase.validateInput
    split_ifs with h1 h2 h3 h4
    · exact ⟨_, rfl⟩
    · exact ⟨_, rfl⟩
    · exact ⟨_, rfl⟩
    · exact ⟨_, rfl⟩
    · rcases h with h | h | h | h
      · exact absurd h h1
      · exact absurd h h2
      · exact absurd h h3
      · exact absurd h h4
  obtain ⟨err, herr⟩ := hv
  exact ⟨err, by unfold usecases.RegisterUserUseCase.Execute; rw [herr]⟩

/-- Instance of `register_validation_makes_no_call`: a registration with the password
"short". -/
theorem register_validation_makes_no_call_witness :
    ∃ err, registerUseCase.Execute "id-1" 0 shortPasswordInput =
      (.error ("invalid input: " ++ err), []) :=
  register_validation_makes_no_call registerUseCase "id-1" 0 shortPasswordInput
    (Or.inr (Or.inr (Or.inl (by decide))))

/-- C17 (code at the failing input): for the existing user alice, with the reset token
generated and the email service failing, RequestPasswordReset returns the wrapped delivery
error. -/
theorem requestPasswordReset_returns_delivery_error :
    (passwordService [alice] resetTokens).RequestPasswordReset "alice@example.com" =
      (some "failed to send reset email: smtp unavailable",
       [.FindByEmail "alice@example.com", .GeneratePasswordResetToken "u1",
        .SendPasswordResetEmail "alice@example.com" "reset:u1"]) := by
  decide

/-- C18 (as stated, refuted): for a guest and the empty target id, ChangeRole and the use case
Execute with NewRole = admin return the error of the id check, which is not an unauthorized
error. -/
theorem changeRole_empty_id_is_not_unauthorized :
    userrolemanager.Service.ChangeRole { userRepo := UserRepository.answers [alice] }
        guestContext { UserID := "", NewRole := Admin } =
      (.error "user ID is required", []) ∧
    usecases.ChangeRoleUseCase.Execute { userRepo := UserRepository.answers [alice] }
        guestContext { UserID := "", NewRole := Admin } =
      (.error "user ID is required", []) ∧
    unauthorizedError "user ID is required" = false ∧
    unauthorizedError "unauthorized: not authenticated" = true :=
  ⟨rfl, rfl, by decide, by decide⟩

/-- C18 (amended): when the context role is missing, of another type or not admin,
PromoteToAdmin returns the unauthorized error for every target id, and ChangeRole and the use
case Execute with NewRole = admin return an unauthorized error for every non-empty target id
and the error of the id check for the empty one; none of them calls a collaborator, so Save
is never called. -/
theorem promotion_to_admin_needs_admin (s : userrolemanager.Service)
    (uc : usecases.ChangeRoleUseCase) (ctx : Context) (userID : String)
    (h : ctx.userRole ≠ some Admin) :
    s.PromoteToAdmin ctx userID =
        (.error "unauthorized: only admins can promote users to admin", []) ∧
    (userID ≠ "" →
      (s.ChangeRole ctx { UserID := userID, NewRole := Admin } =
          (.error "unauthorized: not authenticated", []) ∨
        s.ChangeRole ctx { UserID := userID, NewRole := Admin } =
          (.error "unauthorized: only admins can promote users to admin", [])) ∧
      (uc.Execute ctx { UserID := userID, NewRole := Admin } =
          (.error "unauthorized: not authenticated", []) ∨
        uc.Execute ctx { UserID := userID, NewRole := Admin } =
          (.error "unauthorized: only admins can promote users to admin", []))) ∧
    (userID = "" →
      s.ChangeRole ctx { UserID := userID, NewRole := Admin } =
          (.error "user ID is required", []) ∧
        uc.Execute ctx { UserID := userID, NewRole := Admin } =
          (.error "user ID is required", [])) := by
  refine ⟨?_, ?_, ?_⟩
  · unfold userrolemanager.Service.PromoteToAdmin
    cases hr : ctx.userRole with
    | none => rfl
    | some r =>
      have hne : r ≠ Admin := fun e => h (by rw [hr, e])
      simp [hne]
  · intro hid
    unfold userrolemanager.Service.ChangeRole
      userrolemanager.Service.checkRoleChangeAuthorization usecases.ChangeRoleUseCase.Execute
    cases hr : ctx.userRole with
    | none => simp [hid]
    | some r =>
      have hne : r ≠ Admin := fun e => h (by rw [hr, e])
      simp [hid, hne]
  · intro hid
    simp [userrolemanager.Service.ChangeRole, usecases.ChangeRoleUseCase.Execute, hid]

/-- Witness for C18 (amended): a guest, and a caller whose role value is an untyped string, asking for
the admin role for user u1. -/
theorem promotion_to_admin_needs_admin_witness :
    userrolemanager.Service.PromoteToAdmin { userRepo := UserRepository.answers [alice] }
        guestContext "u1" =
      (.error "unauthorized: only admins can promote users to admin", []) ∧
    userrolemanager.Service.PromoteToAdmin { userRepo := UserRepository.answers [alice] }
        untypedAdminContext "u1" =
      (.error "unauthorized: only admins can promote users to admin", []) :=
  ⟨(promotion_to_admin_needs_admin { userRepo := UserRepository.answers [alice] }
      { userRepo := UserRepository.answers [alice] } guestContext "u1" (by decide)).1,
   (promotion_to_admin_needs_admin { userRepo := UserRepository.answers [alice] }
      { userRepo := UserRepository.answers [alice] } untypedAdminContext "u1" (by decide)).1⟩

/-- C19 (code at the failing input): with a hasher that rejects every password, Login for
alice with a wrong password returns the tokens and never calls Verify; the login use case
rejects the same request. -/
theorem login_skips_password_check :
    strictAuthenticator.Login { Email := "alice@example.com", Password := "not her password" } =
        (.ok { User := alice, AccessToken := "access:u1", RefreshToken := "refresh:u1" },
         [.FindByEmail "alice@example.com", .GenerateToken "u1" Guest,
          .GenerateRefreshToken "u1"]) ∧
      strictAuthenticator.passwordHasher.Verify "not her password" "u1" =
        some "password mismatch" ∧
      strictLoginUseCase.Execute
          { Email := "alice@example.com", Password := "not her password" } =
        (.error "invalid email or password",
         [.FindByEmail "alice@example.com", .Verify "not her password" "u1"]) :=
  ⟨rfl, rfl, rfl⟩

/-- C20 (code at the failing input): with the same failing email service, or the same broken
token generator, RequestPasswordReset for alice@example.com returns an error when the
repository holds that user and nil when it does not. -/
theorem requestPasswordReset_reveals_existence :
    ((passwordService [alice] resetTokens).RequestPasswordReset "alice@example.com").1 =
        some "failed to send reset email: smtp unavailable" ∧
      ((passwordService [] resetTokens).RequestPasswordReset "alice@example.com").1 = none ∧
      ((passwordService [alice] brokenResetTokens).RequestPasswordReset
          "alice@example.com").1 =
        some "failed to generate reset token: signing key unavailable" ∧
      ((passwordService [] brokenResetTokens).RequestPasswordReset "alice@example.com").1 =
        none := by
  decide

/-! ### Role change, listing, password change and deletion: who may do what -/

theorem Context.userID_getD_ne (ctx : Context) (userID : String)
    (hid : ctx.userID ≠ some userID) (hne : userID ≠ "") : ctx.userID.getD "" ≠ userID := by
  cases h : ctx.userID with
  | none => simpa using fun e : "" = userID => hne e.symm
  | some x =>
    rw [h] at hid
    simpa using fun e : x = userID => hid (by rw [e])

theorem Context.userRole_getD_ne (ctx : Context) :
    ctx.userRole.getD "" ≠ Admin ↔ ctx.userRole ≠ some Admin := by
  cases h : ctx.userRole with
  | none =>
    have h0 : ("" : Role) ≠ Admin := by decide
    simpa using h0
  | some r => simp

/-- C21 (as stated, refuted): for a guest with user_id u1 and the empty target id, which
differs from u1, ChangeRole and the use case Execute return the error of the id check, not
an unauthorized error. -/
theorem changeRole_of_empty_target_is_not_unauthorized :
    guestContext.userRole = some Guest ∧ guestContext.userID = some "u1" ∧
    userrolemanager.Service.ChangeRole { userRepo := UserRepository.answers [alice] }
        guestContext { UserID := "", NewRole := Host } =
      (.error "user ID is required", []) ∧
    usecases.ChangeRoleUseCase.Execute { userRepo := UserRepository.answers [alice] }
        guestContext { UserID := "", NewRole := Host } =
      (.error "user ID is required", []) ∧
    unauthorizedError "user ID is required" = false :=
  ⟨rfl, rfl, rfl, rfl, by decide⟩

/-- C21 (amended): for a non-empty target id, a context whose role is not admin (or missing)
and whose user_id is not the target (or missing) gets an unauthorized error from ChangeRole
and from the use case Execute for every requested role, with no collaborator call, so the
repository is left unchanged; for the empty target id both return the error
`user ID is required` for every context and role, also without any call; a context with a
role other than admin whose user_id is the target passes the authorization check for the
roles guest and host, and both functions go on to look the user up. -/
theorem role_change_of_another_user_is_refused (s : userrolemanager.Service)
    (uc : usecases.ChangeRoleUseCase) (ctx : Context) (userID : String) (newRole : Role) :
    (userID ≠ "" → ctx.userRole ≠ some Admin → ctx.userID ≠ some userID →
      (∃ err, unauthorizedError err = true ∧
        s.ChangeRole ctx { UserID := userID, NewRole := newRole } = (.error err, [])) ∧
      (∃ err, unauthorizedError err = true ∧
        uc.Execute ctx { UserID := userID, NewRole := newRole } = (.error err, []))) ∧
    (s.ChangeRole ctx { UserID := "", NewRole := newRole } =
        (.error "user ID is required", []) ∧
      uc.Execute ctx { UserID := "", NewRole := newRole } =
        (.error "user ID is required", [])) ∧
    (userID ≠ "" → ∀ r, ctx.userRole = some r → r ≠ Admin → ctx.userID = some userID →
      newRole = Guest ∨ newRole = Host →
      s.checkRoleChangeAuthorization ctx userID newRole = none ∧
      (s.ChangeRole ctx { UserID := userID, NewRole := newRole }).2.head? =
        some (.FindByID userID) ∧
      (uc.Execute ctx { UserID := userID, NewRole := newRole }).2.head? =
        some (.FindByID userID)) := by
  have hGA : Guest ≠ Admin := by decide
  have hHA : Host ≠ Admin := by decide
  refine ⟨?_, ⟨by simp [userrolemanager.Service.ChangeRole],
    by simp [usecases.ChangeRoleUseCase.Execute]⟩, ?_⟩
  · intro hne hrole hid
    have hcur := Context.userID_getD_ne ctx userID hid hne
    unfold userrolemanager.Service.ChangeRole
      userrolemanager.Service.checkRoleChangeAuthorization usecases.ChangeRoleUseCase.Execute
    cases hr : ctx.userRole with
    | none =>
      exact ⟨⟨"unauthorized: not authenticated", by decide, by simp [hne]⟩,
        ⟨"unauthorized: not authenticated", by decide, by simp [hne]⟩⟩
    | some r =>
      have hra : r ≠ Admin := fun e => hrole (by rw [hr, e])
      by_cases hnew : newRole = Admin
      · exact ⟨⟨"unauthorized: only admins can promote users to admin", by decide,
            by simp [hne, hnew, hra]⟩,
          ⟨"unauthorized: only admins can promote users to admin", by decide,
            by simp [hne, hnew, hra]⟩⟩
      · exact ⟨⟨"unauthorized: cannot change another user\x27s role", by decide,
            by simp [hne, hnew, hra, hcur]⟩,
          ⟨"unauthorized: cannot change another user\x27s role", by decide,
            by simp [hne, hnew, hra, hcur]⟩⟩
  · intro hne r hr hra hid hnew
    have hnewA : newRole ≠ Admin := by
      rcases hnew with h | h <;> rw [h] <;> assumption
    have hauth : s.checkRoleChangeAuthorization ctx userID newRole = none := by
      simp [userrolemanager.Service.checkRoleChangeAuthorization, hr, hid, hnewA]
    refine ⟨hauth, ?_, ?_⟩
    · unfold userrolemanager.Service.ChangeRole
      rw [if_neg hne, hauth]
      dsimp only
      cases s.userRepo.FindByID userID with
      | error e => rfl
      | ok u =>
        dsimp only
        split
        · rfl
        · cases s.userRepo.Save { u with Role := newRole } <;> rfl
    · unfold usecases.ChangeRoleUseCase.Execute
      simp only [if_neg hne, hr, hid, hnewA, false_and, if_false, Option.getD_some,
        ne_eq, not_true_eq_false]
      cases uc.userRepo.FindByID userID with
      | error e => rfl
      | ok u =>
        dsimp only
        split
        · rfl
        · cases uc.userRepo.Save { u with Role := newRole } <;> rfl

/-- Witness for C21 (amended): the guest u1 asking for the host role for user u2. -/
theorem role_change_of_another_user_is_refused_witness :
    (∃ err, unauthorizedError err = true ∧
      userrolemanager.Service.ChangeRole { userRepo := UserRepository.answers [alice, bob] }
        guestContext { UserID := "u2", NewRole := Host } = (.error err, [])) ∧
    (∃ err, unauthorizedError err = true ∧
      usecases.ChangeRoleUseCase.Execute { userRepo := UserRepository.answers [alice, bob] }
        guestContext { UserID := "u2", NewRole := Host } = (.error err, [])) :=
  (role_change_of_another_user_is_refused { userRepo := UserRepository.answers [alice, bob] }
    { userRepo := UserRepository.answers [alice, bob] } guestContext "u2" Host).1
    (by decide) (by decide) (by decide)

/-- C22: for an admin context, List and the use case Execute pass to FindAll the limit 20
when the input limit is 0, 100 when it exceeds 100 and the input limit otherwise, a value
between 1 and 100, together with the unchanged role filter and offset; FindAll is their first
call, and the only later call is Count with the same role filter, made when FindAll
succeeds. -/
theorem list_passes_clamped_limit (s : usermanager.Service) (uc : usecases.ListUsersUseCase)
    (ctx : Context) (role : Option Role) (limit offset : Nat)
    (hctx : ctx.userRole = some Admin) :
    1 ≤ (if limit = 0 then 20 else if limit > 100 then 100 else limit) ∧
    (if limit = 0 then 20 else if limit > 100 then 100 else limit) ≤ 100 ∧
    (s.List ctx { Role := role, Limit := limit, Offset := offset }).2 =
      Call.FindAll role (if limit = 0 then 20 else if limit > 100 then 100 else limit) offset ::
        (match s.userRepo.FindAll role
            (if limit = 0 then 20 else if limit > 100 then 100 else limit) offset with
          | .ok _ => [Call.Count role]
          | .error _ => []) ∧
    (uc.Execute ctx { Role := role, Limit := limit, Offset := offset }).2 =
      Call.FindAll role (if limit = 0 then 20 else if limit > 100 then 100 else limit) offset ::
        (match uc.userRepo.FindAll role
            (if limit = 0 then 20 else if limit > 100 then 100 else limit) offset with
          | .ok _ => [Call.Count role]
          | .error _ => []) := by
  refine ⟨by split_ifs <;> omega, by split_ifs <;> omega, ?_, ?_⟩
  · unfold usermanager.Service.List
    simp only [hctx, ne_eq, not_true_eq_false, if_false]
    by_cases h0 : limit = 0
    · subst h0
      simp only [if_true, show ¬ (20 > 100) by decide, if_false]
      cases s.userRepo.FindAll role 20 offset with
      | error e => rfl
      | ok users => cases s.userRepo.Count role <;> rfl
    · by_cases h1 : limit > 100
      · simp only [h0, h1, if_false, if_true]
        cases s.userRepo.FindAll role 100 offset with
        | error e => rfl
        | ok users => cases s.userRepo.Count role <;> rfl
      · simp only [h0, h1, if_false]
        cases s.userRepo.FindAll role limit offset with
        | error e => rfl
        | ok users => cases s.userRepo.Count role <;> rfl
  · unfold usecases.ListUsersUseCase.Execute
    simp only [hctx, ne_eq, not_true_eq_false, if_false]
    by_cases h0 : limit = 0
    · subst h0
      simp only [if_true, show ¬ (20 > 100) by decide, if_false]
      cases uc.userRepo.FindAll role 20 offset with
      | error e => rfl
      | ok users => cases uc.userRepo.Count role <;> rfl
    · by_cases h1 : limit > 100
      · simp only [h0, h1, if_false, if_true]
        cases uc.userRepo.FindAll role 100 offset with
        | error e => rfl
        | ok users => cases uc.userRepo.Count role <;> rfl
      · simp only [h0, h1, if_false]
        cases uc.userRepo.FindAll role limit offset with
        | error e => rfl
        | ok users => cases uc.userRepo.Count role <;> rfl

/-- Witness for C22: an admin listing hosts with the limit 500 and the offset 3. -/
theorem list_passes_clamped_limit_witness :
    (usermanager.Service.List { userRepo := UserRepository.answers [alice, bob] } adminContext
        { Role := some Host, Limit := 500, Offset := 3 }).2 =
      [.FindAll (some Host) 100 3, .Count (some Host)] :=
  (list_passes_clamped_limit { userRepo := UserRepository.answers [alice, bob] }
    { userRepo := UserRepository.answers [alice, bob] } adminContext (some Host) 500 3
    (by decide)).2.2.1

/-- C23: when the context role is missing, of another type or different from admin, List and
the use case Execute return the unauthorized error and call neither FindAll nor Count (they
make no call at all). -/
theorem list_needs_admin (s : usermanager.Service) (uc : usecases.ListUsersUseCase)
    (ctx : Context) (input : usermanager.ListInput) (ucInput : usecases.ListUsersInput)
    (hctx : ctx.userRole ≠ some Admin) :
    s.List ctx input = (.error "unauthorized: only admins can list users", []) ∧
      uc.Execute ctx ucInput = (.error "unauthorized: only admins can list users", []) := by
  unfold usermanager.Service.List usecases.ListUsersUseCase.Execute
  cases hr : ctx.userRole with
  | none => exact ⟨rfl, rfl⟩
  | some r =>
    have hra : r ≠ Admin := fun e => hctx (by rw [hr, e])
    simp [hra]

/-- Witness for C23: a guest, and a caller whose role value is the untyped string "admin". -/
theorem list_needs_admin_witness :
    usermanager.Service.List { userRepo := UserRepository.answers [alice, bob] } guestContext
        { Role := none, Limit := 10, Offset := 0 } =
      (.error "unauthorized: only admins can list users", []) ∧
    usecases.ListUsersUseCase.Execute { userRepo := UserRepository.answers [alice, bob] }
        untypedAdminContext { Role := none, Limit := 10, Offset := 0 } =
      (.error "unauthorized: only admins can list users", []) :=
  ⟨(list_needs_admin { userRepo := UserRepository.answers [alice, bob] }
      { userRepo := UserRepository.answers [alice, bob] } guestContext
      { Role := none, Limit := 10, Offset := 0 } { Role := none, Limit := 10, Offset := 0 }
      (by decide)).1,
   (list_needs_admin { userRepo := UserRepository.answers [alice, bob] }
      { userRepo := UserRepository.answers [alice, bob] } untypedAdminContext
      { Role := none, Limit := 10, Offset := 0 } { Role := none, Limit := 10, Offset := 0 }
      (by decide)).2⟩

/-- C24: for every input passing the field checks (non-empty user id, old and new password,
new password of at least 8 bytes) and every context whose user_id is missing, of another
type or different from the user id of the input, whatever its role, ChangePassword returns
the unauthorized error and calls neither the repository nor the hasher. -/
theorem changePassword_only_own (s : userpasswordmanager.Service) (ctx : Context)
    (input : userpasswordmanager.ChangePasswordInput)
    (hid : input.UserID ≠ "") (hold : input.OldPassword ≠ "") (hnew : input.NewPassword ≠ "")
    (hlen : 8 ≤ input.NewPassword.utf8ByteSize) (hctx : ctx.userID ≠ some input.UserID) :
    s.ChangePassword ctx input =
      (some "unauthorized: cannot change another user\x27s password", []) := by
  unfold userpasswordmanager.Service.ChangePassword
  rw [if_neg hid, if_neg (by simp [hold, hnew]), if_neg (by omega), if_pos hctx]

/-- Witness for C24: the admin root asking to change the password of user u1. -/
theorem changePassword_only_own_witness :
    (passwordService [alice] resetTokens).ChangePassword adminContext
        { UserID := "u1", OldPassword := "old password", NewPassword := "new password" } =
      (some "unauthorized: cannot change another user\x27s password", []) :=
  changePassword_only_own (passwordService [alice] resetTokens) adminContext
    { UserID := "u1", OldPassword := "old password", NewPassword := "new password" }
    (by decide) (by decide) (by decide) (by decide) (by decide)

theorem usermanager.checkAuthorization_eq_none_iff (s : usermanager.Service) (ctx : Context)
    (userID : String) :
    s.checkAuthorization ctx userID = none ↔
      (ctx.userID = some userID ∨ ctx.userRole = some Admin) := by
  unfold usermanager.Service.checkAuthorization
  by_cases hid : ctx.userID = some userID
  · simp [hid]
  · by_cases hr : ctx.userRole = some Admin
    · simp [hid, hr]
    · have := (Context.userRole_getD_ne ctx).2 hr
      simp [hid, hr, this]

theorem usermanager.checkAuthorization_denied (s : usermanager.Service) (ctx : Context)
    (userID : String) (h : ¬ (ctx.userID = some userID ∨ ctx.userRole = some Admin)) :
    s.checkAuthorization ctx userID =
      some "unauthorized: cannot modify another user\x27s data" := by
  have hid : ctx.userID ≠ some userID := fun e => h (Or.inl e)
  have hr := (Context.userRole_getD_ne ctx).2 fun e => h (Or.inr e)
  simp [usermanager.Service.checkAuthorization, hid, hr]

theorem usecases.isValidRoleTransition_admin (fromRole : Role) :
    usecases.isValidRoleTransition fromRole Admin = false := by
  have hHA : (Host == Admin) = false := by decide
  have hGA : (Guest == Admin) = false := by decide
  unfold usecases.isValidRoleTransition usecases.validTransitions
  by_cases hG : fromRole = Guest
  · have e1 : (fromRole == Guest) = true := by simpa using hG
    simp [List.lookup, e1, hHA]
  · have e1 : (fromRole == Guest) = false := by simpa using hG
    by_cases hH : fromRole = Host
    · have e2 : (fromRole == Host) = true := by simpa using hH
      simp [List.lookup, e1, e2, hGA]
    · have e2 : (fromRole == Host) = false := by simpa using hH
      by_cases hA : fromRole = Admin
      · have e3 : (fromRole == Admin) = true := by simpa using hA
        simp [List.lookup, e1, e2, e3, hHA, hGA]
      · have e3 : (fromRole == Admin) = false := by simpa using hA
        simp [List.lookup, e1, e2, e3]

/-- C26: the transition table of the use case has no entry leading to admin, and for every
context, every repository and every target id, Execute with NewRole = admin returns an error
after no call or after the single call FindByID, so it never calls Save. -/
theorem useCase_never_grants_admin (uc : usecases.ChangeRoleUseCase) (ctx : Context)
    (userID : String) :
    (∀ fromRole, usecases.isValidRoleTransition fromRole Admin = false) ∧
    ∃ err,
      uc.Execute ctx { UserID := userID, NewRole := Admin } = (.error err, []) ∨
      uc.Execute ctx { UserID := userID, NewRole := Admin } =
        (.error err, [.FindByID userID]) := by
  refine ⟨usecases.isValidRoleTransition_admin, ?_⟩
  unfold usecases.ChangeRoleUseCase.Execute
  by_cases hne : userID = ""
  · exact ⟨"user ID is required", Or.inl (by simp [hne])⟩
  · cases hr : ctx.userRole with
    | none => exact ⟨"unauthorized: not authenticated", Or.inl (by simp [hne])⟩
    | some r =>
      by_cases hra : r = Admin
      · cases hf : uc.userRepo.FindByID userID with
        | error e =>
          exact ⟨"user not found: " ++ e, Or.inr (by simp [hne, hra, hf])⟩
        | ok u =>
          exact ⟨"invalid role transition from " ++ u.Role ++ " to " ++ Admin,
            Or.inr (by simp [hne, hra, hf, usecases.isValidRoleTransition_admin])⟩
      · exact ⟨"unauthorized: only admins can promote users to admin",
          Or.inl (by simp [hne, hra])⟩
